import Mathlib

/-!
# Arlon: the Cluster reconciliation pass and the profile git flow

A shallow embedding of

* `src/controllers/cluster_controller.go` : `Reconcile`, `UpdateState`,
  `ReconcileDelete`, `retryDelayAsResult`, `defaultArlonChart`;
* `src/pkg/profile/git.go` : `createInGit`.

Both functions are sequences of calls to external collaborators (the
Kubernetes API client, the patch helper, the Argo CD client, the git helpers).
A collaborator is a state transformer over an arbitrary world type `σ`; the
embedded function threads the world through the calls in source order and
records every call, with its arguments and its reply, in a trace.  Logging is
not modelled.
-/

namespace Arlon

/-! ## Go values -/

/-- Go `error` value, reduced to the three observations the controller makes
of it: `err.Error()`, `apierrors.IsNotFound(err)` and
`grpcstatus.FromError(err)` (`some code` when the error carries a gRPC
status, `none` when `ok` is false). -/
structure Error where
  msg : String
  isNotFound : Bool
  grpcCode : Option Nat
deriving DecidableEq, Repr

/-- Value of `time.Duration`: a count of nanoseconds. -/
abbrev Duration := Int

/-- Constant `time.Second`. -/
def Second : Duration := 1000000000

/-- Constant `grpccodes.NotFound`. -/
def grpccodes.NotFound : Nat := 5

/-- Struct `ctrl.Result`; `ctrl.Result{}` is the default value. -/
structure Result where
  Requeue : Bool := false
  RequeueAfter : Duration := 0
deriving DecidableEq, Repr

/-- Struct `types.NamespacedName` carried by `ctrl.Request`. -/
structure NamespacedName where
  Namespace : String
  Name : String
deriving DecidableEq, Repr

/-- Struct `arlonv1.RepoSpec`. -/
structure RepoSpec where
  Url : String
  Path : String
  Revision : String
deriving DecidableEq, Repr

/-- Autoscaler descriptor of the Cluster spec; only `MgmtClusterHost` is read. -/
structure AutoscalerSpec where
  MgmtClusterHost : String
deriving DecidableEq, Repr

/-- Spec of a Cluster, with the fields `Reconcile` reads. The two pointer
fields are options, `nil` being `none`. -/
structure ClusterSpec where
  ClusterTemplate : RepoSpec
  ArlonHelmChart : Option RepoSpec
  Autoscaler : Option AutoscalerSpec
deriving DecidableEq, Repr

/-- Status of a Cluster. -/
structure ClusterStatus where
  State : String
  Message : String
  InnerClusterName : String
deriving DecidableEq, Repr

/-- Record `arlonv1.Cluster`. `DeletionTimestamp` is a `*metav1.Time`: `none`
is the nil pointer, `some t` a time `t` nanoseconds after the zero instant. -/
structure Cluster where
  Name : String
  Namespace : String
  DeletionTimestamp : Option Int
  Finalizers : List String
  Spec : ClusterSpec
  Status : ClusterStatus
deriving DecidableEq, Repr

/-- Method `(*metav1.Time).IsZero`: nil or the zero instant. -/
def IsZero (t : Option Int) : Bool :=
  match t with
  | none => true
  | some v => v == 0

/-- Helper `controllerutil.ContainsFinalizer`. -/
def ContainsFinalizer (cr : Cluster) (finalizer : String) : Bool :=
  cr.Finalizers.any (fun e => e == finalizer)

/-- Helper `controllerutil.AddFinalizer`: appends unless already there. -/
def AddFinalizer (cr : Cluster) (finalizer : String) : Cluster :=
  if cr.Finalizers.any (fun e => e == finalizer) then cr
  else { cr with Finalizers := cr.Finalizers ++ [finalizer] }

/-- Value of `*restclient.Config`, never inspected by the controller. -/
structure RestConfig where
  Host : String
deriving DecidableEq, Repr

/-- Value of `*argocd.RepoCreds`, never inspected by the controller. -/
structure RepoCreds where
  Username : String
  Password : String
deriving DecidableEq, Repr

/-- Struct `ClusterReconciler`, without its two clients (they are the
collaborators) and its scheme. -/
structure ClusterReconciler where
  Config : RestConfig
  ArgoCdNs : String
  ArlonNs : String
deriving DecidableEq, Repr

/-- Variable `retryDelayAsResult` (line 44). -/
def retryDelayAsResult : Result := { RequeueAfter := Second * 10 }

/-- Variable `defaultArlonChart` (lines 47-51). -/
def defaultArlonChart : RepoSpec :=
  { Url := "https://github.com/arlonproj/arlon.git"
    Path := "pkg/cluster/manifests"
    Revision := "v0.10.0" }

/-! ## Calls, replies, traces -/

/-- Arguments of `cluster.Create` after `appIf`, in call order (lines 170-173). -/
structure CreateArgs where
  config : RestConfig
  argocdNs : String
  arlonNs : String
  clusterName : String
  innerClusterName : String
  chartUrl : String
  chartRevision : String
  chartPath : String
  arg10 : String
  arg11IsNil : Bool
  arg12 : Bool
  casMgmtClusterHost : String
  gen2CASEnabled : Bool
deriving DecidableEq, Repr

/-- Arguments of `cluster.CreateClusterApp` after `appIf`, in call order
(lines 187-189). -/
structure CreateClusterAppArgs where
  argocdNs : String
  clusterName : String
  innerClusterName : String
  repoUrl : String
  repoRevision : String
  repoPath : String
  arg8 : Bool
  overridden : Bool
deriving DecidableEq, Repr

/-- External call made by a reconcile pass, with its arguments. -/
inductive Call where
  | Get (key : NamespacedName)
  | NewHelper (cr : Cluster)
  | Patch (cr : Cluster) (withStatusObservedGeneration : Bool)
  | GetKubeclientAndRepoCreds (config : RestConfig) (argocdNs : String) (url : String)
  | ValidateGitDir (creds : RepoCreds) (url : String) (revision : String) (path : String)
  | NewApplicationClient
  | AppGet (name : String)
  | Create (args : CreateArgs)
  | CreateClusterApp (args : CreateClusterAppArgs)
  | StatusUpdate (cr : Cluster)
  | Close
deriving DecidableEq, Repr

/-- What a call returned: a nil error with no value read, a value, or a
non-nil error. -/
inductive Reply where
  | ok
  | cluster (cr : Cluster)
  | creds (c : RepoCreds)
  | name (n : String)
  | fail (err : Error)
deriving DecidableEq, Repr

/-- One external call together with its reply. -/
structure Event where
  call : Call
  reply : Reply
deriving DecidableEq, Repr

/-- Calls that reach the delivery engine: opening the application client,
Application lookups and the two create calls. -/
def Call.isDeliveryEngine (c : Call) : Bool :=
  match c with
  | Call.NewApplicationClient => true
  | Call.AppGet _ => true
  | Call.Create _ => true
  | Call.CreateClusterApp _ => true
  | _ => false

/-- Calls that store the status of the record. -/
def Call.isStatusUpdate (c : Call) : Bool :=
  match c with
  | Call.StatusUpdate _ => true
  | _ => false

/-- Behaviour of the external collaborators of `Reconcile` over a world `σ`.
Every operation may change the world and answer as it likes. -/
structure Collaborators (σ : Type) where
  Get : NamespacedName → σ → Except Error Cluster × σ
  NewHelper : Cluster → σ → Option Error × σ
  Patch : Cluster → Bool → σ → Option Error × σ
  GetKubeclientAndRepoCreds : RestConfig → String → String → σ → Except Error RepoCreds × σ
  ValidateGitDir : RepoCreds → String → String → String → σ → Except Error String × σ
  NewApplicationClient : σ → Option Error × σ
  AppGet : String → σ → Option Error × σ
  Create : CreateArgs → σ → Option Error × σ
  CreateClusterApp : CreateClusterAppArgs → σ → Option Error × σ
  StatusUpdate : Cluster → σ → Option Error × σ
  Close : σ → σ

/-- What a pass leaves behind: the returned `(ctrl.Result, error)`, the local
record `cr` as the pass last wrote it (`none` when it was never fetched), the
trace of external calls and the world. -/
structure Outcome (σ : Type) where
  result : Result
  err : Option Error
  cr : Option Cluster
  trace : List Event
  world : σ

/-! ## The controller -/

/-- Lines 205-206 of `UpdateState`: the two status fields it assigns. -/
def setStatus (cr : Cluster) (state : String) (msg : String) : Cluster :=
  { cr with Status := { cr.Status with State := state, Message := msg } }

/-- Method `UpdateState` (lines 198-213), continuing the trace `tr` in world `s`. -/
def UpdateState {σ : Type} (c : Collaborators σ) (s : σ) (tr : List Event)
    (cr : Cluster) (state : String) (msg : String) (result : Result) : Outcome σ :=
  let cr1 := setStatus cr state msg
  match c.StatusUpdate cr1 s with
  | (some err, s1) =>
    { result := {}, err := some err, cr := some cr1,
      trace := tr ++ [⟨Call.StatusUpdate cr1, Reply.fail err⟩], world := s1 }
  | (none, s1) =>
    { result := result, err := none, cr := some cr1,
      trace := tr ++ [⟨Call.StatusUpdate cr1, Reply.ok⟩], world := s1 }

/-- Method `ReconcileDelete` (lines 215-222): returns at once. -/
def ReconcileDelete {σ : Type} (s : σ) (tr : List Event) (cr : Cluster) : Outcome σ :=
  { result := {}, err := none, cr := some cr, trace := tr, world := s }

/-- Arguments of the `cluster.CreateClusterApp` call of lines 186-189. -/
def clusterAppArgs (r : ClusterReconciler) (cr : Cluster) : CreateClusterAppArgs :=
  let ctmpl := cr.Spec.ClusterTemplate
  let overridden := false
  { argocdNs := r.ArgoCdNs, clusterName := cr.Name,
    innerClusterName := cr.Status.InnerClusterName,
    repoUrl := ctmpl.Url, repoRevision := ctmpl.Revision, repoPath := ctmpl.Path,
    arg8 := false, overridden := overridden }

/-- Lines 179-195 of `Reconcile`: the workload Application step, reached both
when the platform Application was found and after it was created. -/
def Reconcile.workload {σ : Type} (c : Collaborators σ) (r : ClusterReconciler)
    (s : σ) (tr : List Event) (cr : Cluster) : Outcome σ :=
  match c.AppGet cr.Name s with
  | (none, s1) =>
    UpdateState c s1 (tr ++ [⟨Call.AppGet cr.Name, Reply.ok⟩]) cr "created"
      "cluster app already exists -- ok" {}
  | (some e, s1) =>
    let tr1 := tr ++ [⟨Call.AppGet cr.Name, Reply.fail e⟩]
    match c.CreateClusterApp (clusterAppArgs r cr) s1 with
    | (some err, s2) =>
      UpdateState c s2 (tr1 ++ [⟨Call.CreateClusterApp (clusterAppArgs r cr), Reply.fail err⟩])
        cr "retrying" ("failed to create cluster application: " ++ err.msg) retryDelayAsResult
    | (none, s2) =>
      UpdateState c s2 (tr1 ++ [⟨Call.CreateClusterApp (clusterAppArgs r cr), Reply.ok⟩])
        cr "created" "cluster creation successful" retryDelayAsResult

/-- Arguments of the `cluster.Create` call, computed on lines 155-173: the
override chart or the default one, and the autoscaler host and inner cluster
name when an autoscaler descriptor is present. -/
def createArgs (r : ClusterReconciler) (cr : Cluster) : CreateArgs :=
  let gen2CASEnabled := cr.Spec.Autoscaler.isSome
  let casMgmtClusterHost :=
    match cr.Spec.Autoscaler with
    | some a => a.MgmtClusterHost
    | none => ""
  let innerClusterName :=
    match cr.Spec.Autoscaler with
    | some _ => cr.Status.InnerClusterName
    | none => ""
  let arlonHelmChart :=
    match cr.Spec.ArlonHelmChart with
    | some h => h
    | none => defaultArlonChart
  { config := r.Config, argocdNs := r.ArgoCdNs, arlonNs := r.ArlonNs,
    clusterName := cr.Name, innerClusterName := innerClusterName,
    chartUrl := arlonHelmChart.Url, chartRevision := arlonHelmChart.Revision,
    chartPath := arlonHelmChart.Path, arg10 := "", arg11IsNil := true,
    arg12 := false, casMgmtClusterHost := casMgmtClusterHost,
    gen2CASEnabled := gen2CASEnabled }

/-- Lines 141-195 of `Reconcile`: everything that runs between opening the
application client and the deferred `io.Close(conn)`. -/
def Reconcile.apps {σ : Type} (c : Collaborators σ) (r : ClusterReconciler)
    (s : σ) (tr : List Event) (cr : Cluster) : Outcome σ :=
  let arlonAppName := cr.Name ++ "-arlon"
  match c.AppGet arlonAppName s with
  | (none, s1) =>
    Reconcile.workload c r s1 (tr ++ [⟨Call.AppGet arlonAppName, Reply.ok⟩]) cr
  | (some e, s1) =>
    let tr1 := tr ++ [⟨Call.AppGet arlonAppName, Reply.fail e⟩]
    match e.grpcCode with
    | none =>
      UpdateState c s1 tr1 cr "retrying" "failed to get grpc status from argocd API"
        retryDelayAsResult
    | some code =>
      if code ≠ grpccodes.NotFound then
        UpdateState c s1 tr1 cr "retrying"
          ("unexpected grpc status: " ++ toString code) retryDelayAsResult
      else
        match c.Create (createArgs r cr) s1 with
        | (some err, s2) =>
          UpdateState c s2 (tr1 ++ [⟨Call.Create (createArgs r cr), Reply.fail err⟩]) cr
            "retrying" ("failed to create arlon application: " ++ err.msg) retryDelayAsResult
        | (none, s2) =>
          Reconcile.workload c r s2 (tr1 ++ [⟨Call.Create (createArgs r cr), Reply.ok⟩]) cr

/-- Method `Reconcile` (lines 76-196). `ClusterFinalizer` is the constant
`arlonv1.ClusterFinalizer`, declared outside the sources at hand and taken as
a parameter. -/
def Reconcile {σ : Type} (c : Collaborators σ) (ClusterFinalizer : String)
    (r : ClusterReconciler) (req : NamespacedName) (s : σ) : Outcome σ :=
  match c.Get req s with
  | (Except.error e, s1) =>
    if e.isNotFound then
      { result := {}, err := none, cr := none,
        trace := [⟨Call.Get req, Reply.fail e⟩], world := s1 }
    else
      { result := { Requeue := true }, err := none, cr := none,
        trace := [⟨Call.Get req, Reply.fail e⟩], world := s1 }
  | (Except.ok cr, s1) =>
    let tr1 : List Event := [⟨Call.Get req, Reply.cluster cr⟩]
    match c.NewHelper cr s1 with
    | (some e, s2) =>
      { result := { Requeue := true }, err := none, cr := some cr,
        trace := tr1 ++ [⟨Call.NewHelper cr, Reply.fail e⟩], world := s2 }
    | (none, s2) =>
      let tr2 := tr1 ++ [⟨Call.NewHelper cr, Reply.ok⟩]
      if !IsZero cr.DeletionTimestamp then
        ReconcileDelete s2 tr2 cr
      else if cr.Status.State = "created" then
        { result := {}, err := none, cr := some cr, trace := tr2, world := s2 }
      else if !ContainsFinalizer cr ClusterFinalizer then
        let cr1 := AddFinalizer cr ClusterFinalizer
        match c.Patch cr1 true s2 with
        | (some e, s3) =>
          { result := {}, err := some e, cr := some cr1,
            trace := tr2 ++ [⟨Call.Patch cr1 true, Reply.fail e⟩], world := s3 }
        | (none, s3) =>
          { result := {}, err := none, cr := some cr1,
            trace := tr2 ++ [⟨Call.Patch cr1 true, Reply.ok⟩], world := s3 }
      else
        let ctmpl := cr.Spec.ClusterTemplate
        if cr.Status.InnerClusterName = "" then
          match c.GetKubeclientAndRepoCreds r.Config r.ArgoCdNs ctmpl.Url s2 with
          | (Except.error e, s3) =>
            UpdateState c s3
              (tr2 ++ [⟨Call.GetKubeclientAndRepoCreds r.Config r.ArgoCdNs ctmpl.Url,
                Reply.fail e⟩])
              cr "retrying" ("failed to get repo creds: " ++ e.msg) retryDelayAsResult
          | (Except.ok creds, s3) =>
            let tr3 := tr2 ++ [⟨Call.GetKubeclientAndRepoCreds r.Config r.ArgoCdNs ctmpl.Url,
              Reply.creds creds⟩]
            match c.ValidateGitDir creds ctmpl.Url ctmpl.Revision ctmpl.Path s3 with
            | (Except.error e, s4) =>
              UpdateState c s4
                (tr3 ++ [⟨Call.ValidateGitDir creds ctmpl.Url ctmpl.Revision ctmpl.Path,
                  Reply.fail e⟩])
                cr "retrying" ("failed to validate cluster template: " ++ e.msg)
                retryDelayAsResult
            | (Except.ok innerClusterName, s4) =>
              let cr1 : Cluster :=
                { cr with Status := { cr.Status with InnerClusterName := innerClusterName } }
              UpdateState c s4
                (tr3 ++ [⟨Call.ValidateGitDir creds ctmpl.Url ctmpl.Revision ctmpl.Path,
                  Reply.name innerClusterName⟩])
                cr1 "initializing" "cluster template validation successful" {}
        else
          match c.NewApplicationClient s2 with
          | (some e, s3) =>
            UpdateState c s3 (tr2 ++ [⟨Call.NewApplicationClient, Reply.fail e⟩]) cr "retrying"
              ("failed to get argocd application client: " ++ e.msg) retryDelayAsResult
          | (none, s3) =>
            let o := Reconcile.apps c r s3 (tr2 ++ [⟨Call.NewApplicationClient, Reply.ok⟩]) cr
            { o with trace := o.trace ++ [⟨Call.Close, Reply.ok⟩], world := c.Close o.world }

/-! ## Collaborators used to run the controller on concrete inputs -/

/-- Replies of one pass, one per call site of `Reconcile`. -/
structure Script where
  get : Except Error Cluster
  newHelper : Option Error
  patch : Option Error
  repoCreds : Except Error RepoCreds
  validateGitDir : Except Error String
  newApplicationClient : Option Error
  platformGet : Option Error
  create : Option Error
  workloadGet : Option Error
  createClusterApp : Option Error
  statusUpdate : Option Error

/-- Collaborators that answer each call site from a script, whatever the
arguments. The world counts the Application lookups made so far: the first
lookup of a pass is the platform one, the second the workload one. -/
def scripted (k : Script) : Collaborators Nat :=
  { Get := fun _ n => (k.get, n)
    NewHelper := fun _ n => (k.newHelper, n)
    Patch := fun _ _ n => (k.patch, n)
    GetKubeclientAndRepoCreds := fun _ _ _ n => (k.repoCreds, n)
    ValidateGitDir := fun _ _ _ _ n => (k.validateGitDir, n)
    NewApplicationClient := fun n => (k.newApplicationClient, n)
    AppGet := fun _ n => (if n = 0 then k.platformGet else k.workloadGet, n + 1)
    Create := fun _ n => (k.create, n)
    CreateClusterApp := fun _ n => (k.createClusterApp, n)
    StatusUpdate := fun _ n => (k.statusUpdate, n)
    Close := fun n => n }

/-- Record `cr` with its stored `status.state` replaced by `st`. -/
def withState (cr : Cluster) (st : String) : Cluster :=
  { cr with Status := { cr.Status with State := st } }

/-- A world in which every collaborator succeeds: the stored Cluster record
and the names of the Applications the delivery engine holds. -/
structure World where
  stored : Cluster
  apps : List String
deriving DecidableEq, Repr

/-- Error a lookup answers when the object does not exist: gRPC status
`NotFound`, and not-found for the Kubernetes client. -/
def notFoundError : Error :=
  { msg := "not found", isNotFound := true, grpcCode := some grpccodes.NotFound }

/-- Modelled from the spec: the effect of `cluster.Create` and
`cluster.CreateClusterApp` (package `pkg/cluster`, not among the sources at
hand) on the delivery engine, from the data model: the platform Application
is named `<cluster>-arlon`, the workload Application is named as the cluster,
and a created Application exists afterwards. Every call succeeds; the record
is stored by a patch or a status update; credentials and the validated inner
cluster name are the given `creds` and `inner`. -/
def allSucceed (creds : RepoCreds) (inner : String) : Collaborators World :=
  { Get := fun key w =>
      if key.Name = w.stored.Name ∧ key.Namespace = w.stored.Namespace then
        (Except.ok w.stored, w)
      else (Except.error notFoundError, w)
    NewHelper := fun _ w => (none, w)
    Patch := fun cr _ w => (none, { w with stored := cr })
    GetKubeclientAndRepoCreds := fun _ _ _ w => (Except.ok creds, w)
    ValidateGitDir := fun _ _ _ _ w => (Except.ok inner, w)
    NewApplicationClient := fun w => (none, w)
    AppGet := fun name w => (if name ∈ w.apps then none else some notFoundError, w)
    Create := fun a w => (none, { w with apps := w.apps ++ [a.clusterName ++ "-arlon"] })
    CreateClusterApp := fun a w => (none, { w with apps := w.apps ++ [a.clusterName] })
    StatusUpdate := fun cr w => (none, { w with stored := cr })
    Close := fun w => w }

/-- Outcome of the `n`-th successive pass (counted from 1; `0` is before any
pass, with an empty outcome) from world `w`: every pass starts in the world
the previous one left. -/
def passes {σ : Type} (c : Collaborators σ) (fin : String) (r : ClusterReconciler)
    (req : NamespacedName) (w : σ) : Nat → Outcome σ
  | 0 => { result := {}, err := none, cr := none, trace := [], world := w }
  | n + 1 => Reconcile c fin r req (passes c fin r req w n).world

/-! ## The profile flow -/

/-- Reference to a value `createInGit` only hands on: client set, config map,
bundle list, repository, worktree, auth method. -/
abbrev Handle := Nat

/-- Struct `gogit.PushOptions` as filled at lines 62-67; `Progress` and
`CABundle` are nil there. -/
structure PushOptions where
  RemoteName : String
  Auth : Handle
deriving DecidableEq, Repr

/-- Constant `gogit.DefaultRemoteName`. -/
def DefaultRemoteName : String := "origin"

/-- External call made by `createInGit`, with its arguments. -/
inductive GitCall where
  | GetBundlesFromProfile (profileCm : Handle) (kubeClient : Handle) (arlonNs : String)
  | CloneRepo (kubeClient : Handle) (argocdNs : String) (repoUrl : String) (repoBranch : String)
  | Worktree (repo : Handle)
  | CopyManifests (wt : Handle) (root : String) (repoPath : String)
  | ProcessBundles (wt : Handle) (clusterName : String) (repoUrl : String)
      (repoPath : String) (templatesPath : String) (bundles : Handle)
  | CommitChanges (tmpDir : String) (wt : Handle)
  | Push (repo : Handle) (opts : PushOptions)
deriving DecidableEq, Repr

/-- What a call of `createInGit` returned. -/
inductive GitReply where
  | ok
  | bundles (b : Handle)
  | cloned (repo : Handle) (tmpDir : String) (auth : Handle)
  | worktree (wt : Handle)
  | changed (b : Bool)
  | fail (err : Error)
deriving DecidableEq, Repr

/-- One call of `createInGit` together with its reply. -/
structure GitEvent where
  call : GitCall
  reply : GitReply
deriving DecidableEq, Repr

/-- Behaviour of the collaborators of `createInGit` over a world `σ`; `Join`
is `path.Join` of the standard library. -/
structure GitCollaborators (σ : Type) where
  GetBundlesFromProfile : Handle → Handle → String → σ → Except Error Handle × σ
  CloneRepo : Handle → String → String → String → σ → Except Error (Handle × String × Handle) × σ
  Worktree : Handle → σ → Except Error Handle × σ
  CopyManifests : Handle → String → String → σ → Option Error × σ
  ProcessBundles : Handle → String → String → String → String → Handle → σ → Option Error × σ
  CommitChanges : String → Handle → σ → Except Error Bool × σ
  Push : Handle → PushOptions → σ → Option Error × σ
  Join : String → String → String

/-- Error built by `fmt.Errorf` with a `%s` verb: a plain error with that text. -/
def Errorf (msg : String) : Error :=
  { msg := msg, isNotFound := false, grpcCode := none }

/-- What `createInGit` leaves behind: the returned error, the trace, the world. -/
structure GitOutcome (σ : Type) where
  err : Option Error
  trace : List GitEvent
  world : σ

/-- Function `createInGit` (lines 20-73). -/
def createInGit {σ : Type} (c : GitCollaborators σ) (kubeClient : Handle) (profileCm : Handle)
    (argocdNs : String) (arlonNs : String) (repoUrl : String) (repoPath : String)
    (repoBranch : String) (s : σ) : GitOutcome σ :=
  match c.GetBundlesFromProfile profileCm kubeClient arlonNs s with
  | (Except.error err, s1) =>
    { err := some (Errorf ("failed to get bundles: " ++ err.msg)),
      trace := [⟨GitCall.GetBundlesFromProfile profileCm kubeClient arlonNs, GitReply.fail err⟩],
      world := s1 }
  | (Except.ok bundles, s1) =>
    let tr1 : List GitEvent :=
      [⟨GitCall.GetBundlesFromProfile profileCm kubeClient arlonNs, GitReply.bundles bundles⟩]
    match c.CloneRepo kubeClient argocdNs repoUrl repoBranch s1 with
    | (Except.error err, s2) =>
      { err := some (Errorf ("failed to clone repo: " ++ err.msg)),
        trace := tr1 ++ [⟨GitCall.CloneRepo kubeClient argocdNs repoUrl repoBranch,
          GitReply.fail err⟩],
        world := s2 }
    | (Except.ok (repo, tmpDir, auth), s2) =>
      let tr2 := tr1 ++ [⟨GitCall.CloneRepo kubeClient argocdNs repoUrl repoBranch,
        GitReply.cloned repo tmpDir auth⟩]
      match c.Worktree repo s2 with
      | (Except.error err, s3) =>
        { err := some (Errorf ("failed to get repo worktree: " ++ err.msg)),
          trace := tr2 ++ [⟨GitCall.Worktree repo, GitReply.fail err⟩], world := s3 }
      | (Except.ok wt, s3) =>
        let tr3 := tr2 ++ [⟨GitCall.Worktree repo, GitReply.worktree wt⟩]
        match c.CopyManifests wt "." repoPath s3 with
        | (some err, s4) =>
          { err := some (Errorf ("failed to copy embedded content: " ++ err.msg)),
            trace := tr3 ++ [⟨GitCall.CopyManifests wt "." repoPath, GitReply.fail err⟩],
            world := s4 }
        | (none, s4) =>
          let tr4 := tr3 ++ [⟨GitCall.CopyManifests wt "." repoPath, GitReply.ok⟩]
          let templatesPath := c.Join repoPath "templates"
          let pb := GitCall.ProcessBundles wt "\x7b\x7b .Values.clusterName \x7d\x7d" repoUrl
            repoPath templatesPath bundles
          match c.ProcessBundles wt "\x7b\x7b .Values.clusterName \x7d\x7d" repoUrl
              repoPath templatesPath bundles s4 with
          | (some err, s5) =>
            { err := some (Errorf ("failed to process bundles: " ++ err.msg)),
              trace := tr4 ++ [⟨pb, GitReply.fail err⟩], world := s5 }
          | (none, s5) =>
            let tr5 := tr4 ++ [⟨pb, GitReply.ok⟩]
            match c.CommitChanges tmpDir wt s5 with
            | (Except.error err, s6) =>
              { err := some (Errorf ("failed to commit changes: " ++ err.msg)),
                trace := tr5 ++ [⟨GitCall.CommitChanges tmpDir wt, GitReply.fail err⟩],
                world := s6 }
            | (Except.ok changed, s6) =>
              let tr6 := tr5 ++ [⟨GitCall.CommitChanges tmpDir wt, GitReply.changed changed⟩]
              if !changed then
                { err := none, trace := tr6, world := s6 }
              else
                let opts : PushOptions := { RemoteName := DefaultRemoteName, Auth := auth }
                match c.Push repo opts s6 with
                | (some err, s7) =>
                  { err := some (Errorf ("failed to push to remote repository: " ++ err.msg)),
                    trace := tr6 ++ [⟨GitCall.Push repo opts, GitReply.fail err⟩], world := s7 }
                | (none, s7) =>
                  { err := none, trace := tr6 ++ [⟨GitCall.Push repo opts, GitReply.ok⟩],
                    world := s7 }

/-- Replies of one run of `createInGit`, one per stage, and the value
`path.Join(repoPath, "templates")` has in that run. -/
structure GitScript where
  templatesPath : String
  bundles : Except Error Handle
  clone : Except Error (Handle × String × Handle)
  worktree : Except Error Handle
  copy : Option Error
  process : Option Error
  commit : Except Error Bool
  push : Option Error

/-- Collaborators of `createInGit` that answer each stage from a script,
whatever the arguments; `Join` answers the recorded `templatesPath`. -/
def gitScripted (k : GitScript) : GitCollaborators Unit :=
  { GetBundlesFromProfile := fun _ _ _ u => (k.bundles, u)
    CloneRepo := fun _ _ _ _ u => (k.clone, u)
    Worktree := fun _ u => (k.worktree, u)
    CopyManifests := fun _ _ _ u => (k.copy, u)
    ProcessBundles := fun _ _ _ _ _ _ u => (k.process, u)
    CommitChanges := fun _ _ u => (k.commit, u)
    Push := fun _ _ u => (k.push, u)
    Join := fun _ _ => k.templatesPath }

/-! ## Concrete inputs -/

/-- Reconciler settings used in the examples. -/
def exReconciler : ClusterReconciler :=
  { Config := { Host := "https://k8s" }, ArgoCdNs := "argocd", ArlonNs := "arlon" }

/-- Finalizer string used in the examples. -/
def exFinalizer : String := "cluster.arlon.io/finalizer"

/-- Cluster "foo" of scenario A: empty status, no finalizer, template
`https://example/repo.git`, path `p`, revision `main`. -/
def fooCluster : Cluster :=
  { Name := "foo", Namespace := "default", DeletionTimestamp := none, Finalizers := [],
    Spec := { ClusterTemplate := { Url := "https://example/repo.git", Path := "p",
                                   Revision := "main" },
              ArlonHelmChart := none, Autoscaler := none },
    Status := { State := "", Message := "", InnerClusterName := "" } }

/-- Request key of Cluster "foo". -/
def fooKey : NamespacedName := { Namespace := "default", Name := "foo" }

/-- Credentials used in the examples. -/
def exCreds : RepoCreds := { Username := "u", Password := "p" }

/-- World of scenario A before the first pass: "foo" stored, no Application. -/
def fooWorld : World := { stored := fooCluster, apps := [] }

/-- Cluster "foo" after the finalizer was added (state still empty). -/
def fooWithFinalizer : Cluster := AddFinalizer fooCluster exFinalizer

/-- Cluster "foo" once initialised: finalizer present, inner cluster name
known, state "initializing". -/
def fooInitialized : Cluster :=
  { fooWithFinalizer with
    Status := { State := "initializing", Message := "cluster template validation successful",
                InnerClusterName := "inner" } }

/-- Cluster "foo" in state "created". -/
def fooCreated : Cluster := withState fooInitialized "created"

/-- Lookup error with gRPC status `Unavailable` (code 14). -/
def unavailableError : Error :=
  { msg := "rpc error: code = Unavailable desc = connection refused", isNotFound := false,
    grpcCode := some 14 }

/-- Script in which the fetch returns `cr` and every call succeeds; both
Applications are found. -/
def okScript (cr : Cluster) : Script :=
  { get := Except.ok cr, newHelper := none, patch := none, repoCreds := Except.ok exCreds,
    validateGitDir := Except.ok "inner", newApplicationClient := none, platformGet := none,
    create := none, workloadGet := none, createClusterApp := none, statusUpdate := none }

/-- Calls of `createInGit` that push to the remote. -/
def GitCall.isPush (c : GitCall) : Bool :=
  match c with
  | GitCall.Push _ _ => true
  | _ => false

/-- Replies that carry a non-nil error. -/
def GitReply.isFail (r : GitReply) : Bool :=
  match r with
  | GitReply.fail _ => true
  | _ => false

/-- Script of a run of `createInGit` on repository path `profiles/p` (whose
templates path is `profiles/p/templates`) in which every stage succeeds and
`CommitChanges` reports `changed`. -/
def okGitScript (changed : Bool) : GitScript :=
  { templatesPath := "profiles/p/templates", bundles := Except.ok 1, clone := Except.ok (2, "/tmp/arlon-1", 3), worktree := Except.ok 4,
    copy := none, process := none, commit := Except.ok changed, push := none }

/-- Cluster "foo" after a successful template validation that returned
`inner`: finalizer present, state "initializing". -/
def fooValidated (inner : String) : Cluster :=
  setStatus { fooWithFinalizer with
      Status := { fooWithFinalizer.Status with InnerClusterName := inner } }
    "initializing" "cluster template validation successful"

/-- Scenario A: the `n`-th successive pass over Cluster "foo", starting with
an empty status, no finalizer and no Application, every call succeeding. -/
def scenarioA (creds : RepoCreds) (inner : String) (n : Nat) : Outcome World :=
  passes (allSucceed creds inner) exFinalizer exReconciler fooKey fooWorld n

/-! ## Theorems -/

/-- A string of length zero is the empty string. -/
theorem eq_empty_of_length (t : String) (h : t.length = 0) : t = "" := by
  cases t with
  | mk l =>
    have : l = [] := List.length_eq_zero.mp h
    subst this
    rfl

/-- A non-empty suffix changes a string. -/
theorem append_ne_self (n t : String) (ht : t ≠ "") : n ++ t ≠ n := by
  intro h
  have hl := congrArg String.length h
  rw [String.length_append] at hl
  exact ht (eq_empty_of_length t (by omega))

/-- The platform Application name differs from the cluster name. -/
theorem arlon_name_ne (n : String) : n ++ "-arlon" ≠ n :=
  append_ne_self n "-arlon" (by decide)

/-- A concatenation is empty only when both parts are. -/
theorem append_eq_empty_iff (p t : String) : p ++ t = "" ↔ p = "" ∧ t = "" := by
  constructor
  · intro h
    have hl := congrArg String.length h
    rw [String.length_append] at hl
    have h0 : ("" : String).length = 0 := rfl
    exact ⟨eq_empty_of_length p (by omega), eq_empty_of_length t (by omega)⟩
  · rintro ⟨rfl, rfl⟩
    rfl

/-- The cluster name differs from the platform Application name. -/
theorem ne_arlon_name (n : String) : n ≠ n ++ "-arlon" :=
  fun h => arlon_name_ne n h.symm

/-! ### The paths of a pass

Each of the following lemmas lists, for one function, every way it can run:
the calls it adds to the trace with their replies, the record it leaves and
what it returns. -/

/-- The two ways `UpdateState` can run. -/
theorem UpdateState_paths {σ : Type} (c : Collaborators σ) (s : σ) (tr : List Event)
    (cr : Cluster) (st msg : String) (res : Result) :
    ∃ rep, (UpdateState c s tr cr st msg res).trace =
        tr ++ [⟨Call.StatusUpdate (setStatus cr st msg), rep⟩] ∧
      (UpdateState c s tr cr st msg res).cr = some (setStatus cr st msg) ∧
      ((rep = Reply.ok ∧ (UpdateState c s tr cr st msg res).result = res ∧
          (UpdateState c s tr cr st msg res).err = none) ∨
       (∃ e, rep = Reply.fail e ∧ (UpdateState c s tr cr st msg res).result = {} ∧
          (UpdateState c s tr cr st msg res).err = some e)) := by
  simp only [UpdateState]
  split
  · exact ⟨_, rfl, rfl, Or.inr ⟨_, rfl, rfl, rfl⟩⟩
  · exact ⟨_, rfl, rfl, Or.inl ⟨rfl, rfl, rfl⟩⟩

/-- The ways the workload step can run. -/
theorem workload_paths {σ : Type} (c : Collaborators σ) (r : ClusterReconciler) (s : σ)
    (tr : List Event) (cr : Cluster) :
    ∃ body st msg res rep,
      (Reconcile.workload c r s tr cr).trace =
        tr ++ body ++ [⟨Call.StatusUpdate (setStatus cr st msg), rep⟩] ∧
      (Reconcile.workload c r s tr cr).cr = some (setStatus cr st msg) ∧
      ((rep = Reply.ok ∧ (Reconcile.workload c r s tr cr).result = res ∧
          (Reconcile.workload c r s tr cr).err = none) ∨
       (∃ e, rep = Reply.fail e ∧ (Reconcile.workload c r s tr cr).result = {} ∧
          (Reconcile.workload c r s tr cr).err = some e)) ∧
      ((body = [⟨Call.AppGet cr.Name, Reply.ok⟩] ∧ st = "created" ∧
          msg = "cluster app already exists -- ok" ∧ res = {}) ∨
       (∃ e err, body = [⟨Call.AppGet cr.Name, Reply.fail e⟩,
            ⟨Call.CreateClusterApp (clusterAppArgs r cr), Reply.fail err⟩] ∧
          st = "retrying" ∧ msg = "failed to create cluster application: " ++ err.msg ∧
          res = retryDelayAsResult) ∨
       (∃ e, body = [⟨Call.AppGet cr.Name, Reply.fail e⟩,
            ⟨Call.CreateClusterApp (clusterAppArgs r cr), Reply.ok⟩] ∧
          st = "created" ∧ msg = "cluster creation successful" ∧
          res = retryDelayAsResult)) := by
  simp only [Reconcile.workload]
  split
  · obtain ⟨rep, h1, h2, h3⟩ := UpdateState_paths c _ (tr ++ [⟨Call.AppGet cr.Name, Reply.ok⟩])
      cr "created" "cluster app already exists -- ok" {}
    exact ⟨_, _, _, _, rep, h1, h2, h3, Or.inl ⟨rfl, rfl, rfl, rfl⟩⟩
  · split
    · rename_i e _ _ _ err _ _
      obtain ⟨rep, h1, h2, h3⟩ := UpdateState_paths c _
        (tr ++ [⟨Call.AppGet cr.Name, Reply.fail e⟩] ++
          [⟨Call.CreateClusterApp (clusterAppArgs r cr), Reply.fail err⟩])
        cr "retrying" ("failed to create cluster application: " ++ err.msg) retryDelayAsResult
      refine ⟨_, _, _, _, rep, ?_, h2, h3, Or.inr (Or.inl ⟨e, err, rfl, rfl, rfl, rfl⟩)⟩
      simpa using h1
    · rename_i e _ _ _ _ _
      obtain ⟨rep, h1, h2, h3⟩ := UpdateState_paths c _
        (tr ++ [⟨Call.AppGet cr.Name, Reply.fail e⟩] ++
          [⟨Call.CreateClusterApp (clusterAppArgs r cr), Reply.ok⟩])
        cr "created" "cluster creation successful" retryDelayAsResult
      refine ⟨_, _, _, _, rep, ?_, h2, h3, Or.inr (Or.inr ⟨e, rfl, rfl, rfl, rfl⟩)⟩
      simpa using h1

/-- The ways the part of a pass between the opening of the application client
and its closing can run: the platform step stops the pass with a retry, or it
leaves the platform Application found or created and the workload step runs. -/
theorem apps_paths {σ : Type} (c : Collaborators σ) (r : ClusterReconciler) (s : σ)
    (tr : List Event) (cr : Cluster) :
    ∃ body st msg res rep,
      (Reconcile.apps c r s tr cr).trace =
        tr ++ body ++ [⟨Call.StatusUpdate (setStatus cr st msg), rep⟩] ∧
      (Reconcile.apps c r s tr cr).cr = some (setStatus cr st msg) ∧
      ((rep = Reply.ok ∧ (Reconcile.apps c r s tr cr).result = res ∧
          (Reconcile.apps c r s tr cr).err = none) ∨
       (∃ e, rep = Reply.fail e ∧ (Reconcile.apps c r s tr cr).result = {} ∧
          (Reconcile.apps c r s tr cr).err = some e)) ∧
      ((∃ e, body = [⟨Call.AppGet (cr.Name ++ "-arlon"), Reply.fail e⟩] ∧ e.grpcCode = none ∧
          st = "retrying" ∧ msg = "failed to get grpc status from argocd API" ∧
          res = retryDelayAsResult) ∨
       (∃ e code, body = [⟨Call.AppGet (cr.Name ++ "-arlon"), Reply.fail e⟩] ∧
          e.grpcCode = some code ∧ code ≠ grpccodes.NotFound ∧
          st = "retrying" ∧ msg = "unexpected grpc status: " ++ toString code ∧
          res = retryDelayAsResult) ∨
       (∃ e err, body = [⟨Call.AppGet (cr.Name ++ "-arlon"), Reply.fail e⟩,
            ⟨Call.Create (createArgs r cr), Reply.fail err⟩] ∧
          e.grpcCode = some grpccodes.NotFound ∧
          st = "retrying" ∧ msg = "failed to create arlon application: " ++ err.msg ∧
          res = retryDelayAsResult) ∨
       (∃ pre wbody, body = pre ++ wbody ∧
          (pre = [⟨Call.AppGet (cr.Name ++ "-arlon"), Reply.ok⟩] ∨
           ∃ e, e.grpcCode = some grpccodes.NotFound ∧
             pre = [⟨Call.AppGet (cr.Name ++ "-arlon"), Reply.fail e⟩,
               ⟨Call.Create (createArgs r cr), Reply.ok⟩]) ∧
          ((wbody = [⟨Call.AppGet cr.Name, Reply.ok⟩] ∧ st = "created" ∧
              msg = "cluster app already exists -- ok" ∧ res = {}) ∨
           (∃ e err, wbody = [⟨Call.AppGet cr.Name, Reply.fail e⟩,
                ⟨Call.CreateClusterApp (clusterAppArgs r cr), Reply.fail err⟩] ∧
              st = "retrying" ∧ msg = "failed to create cluster application: " ++ err.msg ∧
              res = retryDelayAsResult) ∨
           (∃ e, wbody = [⟨Call.AppGet cr.Name, Reply.fail e⟩,
                ⟨Call.CreateClusterApp (clusterAppArgs r cr), Reply.ok⟩] ∧
              st = "created" ∧ msg = "cluster creation successful" ∧
              res = retryDelayAsResult)))) := by
  simp only [Reconcile.apps]
  split
  · obtain ⟨wbody, st, msg, res, rep, h1, h2, h3, h4⟩ := workload_paths c r _
      (tr ++ [⟨Call.AppGet (cr.Name ++ "-arlon"), Reply.ok⟩]) cr
    refine ⟨_, st, msg, res, rep, ?_, h2, h3,
      Or.inr (Or.inr (Or.inr ⟨_, wbody, rfl, Or.inl rfl, h4⟩))⟩
    simpa using h1
  · rename_i e _ _
    split
    · rename_i hcode
      obtain ⟨rep, h1, h2, h3⟩ := UpdateState_paths c _
        (tr ++ [⟨Call.AppGet (cr.Name ++ "-arlon"), Reply.fail e⟩]) cr "retrying"
        "failed to get grpc status from argocd API" retryDelayAsResult
      exact ⟨_, _, _, _, rep, h1, h2, h3, Or.inl ⟨e, rfl, hcode, rfl, rfl, rfl⟩⟩
    · rename_i code hcode
      split
      · rename_i hne
        obtain ⟨rep, h1, h2, h3⟩ := UpdateState_paths c _
          (tr ++ [⟨Call.AppGet (cr.Name ++ "-arlon"), Reply.fail e⟩]) cr "retrying"
          ("unexpected grpc status: " ++ toString code) retryDelayAsResult
        exact ⟨_, _, _, _, rep, h1, h2, h3, Or.inr (Or.inl ⟨e, code, rfl, hcode, hne, rfl, rfl, rfl⟩)⟩
      · rename_i heq
        have hnf : e.grpcCode = some grpccodes.NotFound := by
          rw [hcode]
          simp only [ne_eq, Decidable.not_not] at heq
          rw [heq]
        split
        · rename_i err _ _
          obtain ⟨rep, h1, h2, h3⟩ := UpdateState_paths c _
            (tr ++ [⟨Call.AppGet (cr.Name ++ "-arlon"), Reply.fail e⟩] ++
              [⟨Call.Create (createArgs r cr), Reply.fail err⟩]) cr "retrying"
            ("failed to create arlon application: " ++ err.msg) retryDelayAsResult
          refine ⟨_, _, _, _, rep, ?_, h2, h3,
            Or.inr (Or.inr (Or.inl ⟨e, err, rfl, hnf, rfl, rfl, rfl⟩))⟩
          simpa using h1
        · obtain ⟨wbody, st, msg, res, rep, h1, h2, h3, h4⟩ := workload_paths c r _
            (tr ++ [⟨Call.AppGet (cr.Name ++ "-arlon"), Reply.fail e⟩] ++
              [⟨Call.Create (createArgs r cr), Reply.ok⟩]) cr
          refine ⟨_, st, msg, res, rep, ?_, h2, h3,
            Or.inr (Or.inr (Or.inr ⟨_, wbody, rfl, Or.inr ⟨e, hnf, rfl⟩, h4⟩))⟩
          simpa using h1

/-- Every way a pass can run. The fetch fails; or the patch helper cannot be
built; or the record is marked for deletion or already "created"; or the
finalizer is missing and gets patched in; or, with the finalizer present, the
pass runs one of the validation, client and Application steps and ends with a
status update. -/
theorem Reconcile_paths {σ : Type} (c : Collaborators σ) (fin : String)
    (r : ClusterReconciler) (req : NamespacedName) (s : σ) :
    (∃ e s1, c.Get req s = (Except.error e, s1) ∧
      (Reconcile c fin r req s).trace = [⟨Call.Get req, Reply.fail e⟩] ∧
      (Reconcile c fin r req s).cr = none ∧ (Reconcile c fin r req s).err = none ∧
      (Reconcile c fin r req s).result = { Requeue := !e.isNotFound, RequeueAfter := 0 }) ∨
    (∃ cr s1, c.Get req s = (Except.ok cr, s1) ∧
      ((∃ e, (Reconcile c fin r req s).trace = [⟨Call.Get req, Reply.cluster cr⟩, ⟨Call.NewHelper cr, Reply.fail e⟩] ∧
          (Reconcile c fin r req s).cr = some cr ∧ (Reconcile c fin r req s).err = none ∧
          (Reconcile c fin r req s).result = { Requeue := true, RequeueAfter := 0 }) ∨
       ((IsZero cr.DeletionTimestamp = false ∨ cr.Status.State = "created") ∧
          (Reconcile c fin r req s).trace = [⟨Call.Get req, Reply.cluster cr⟩, ⟨Call.NewHelper cr, Reply.ok⟩] ∧
          (Reconcile c fin r req s).cr = some cr ∧ (Reconcile c fin r req s).err = none ∧ (Reconcile c fin r req s).result = {}) ∨
       (IsZero cr.DeletionTimestamp = true ∧ cr.Status.State ≠ "created" ∧
          ContainsFinalizer cr fin = false ∧
          ∃ rep, (Reconcile c fin r req s).trace = [⟨Call.Get req, Reply.cluster cr⟩, ⟨Call.NewHelper cr, Reply.ok⟩,
              ⟨Call.Patch (AddFinalizer cr fin) true, rep⟩] ∧
            (Reconcile c fin r req s).cr = some (AddFinalizer cr fin) ∧ (Reconcile c fin r req s).result = {} ∧
            ((rep = Reply.ok ∧ (Reconcile c fin r req s).err = none) ∨ (∃ e, rep = Reply.fail e ∧ (Reconcile c fin r req s).err = some e))) ∨
       (IsZero cr.DeletionTimestamp = true ∧ cr.Status.State ≠ "created" ∧
          ContainsFinalizer cr fin = true ∧
          ∃ body cr1 st msg res rep tail,
            (Reconcile c fin r req s).trace = [⟨Call.Get req, Reply.cluster cr⟩, ⟨Call.NewHelper cr, Reply.ok⟩] ++ body ++
              [⟨Call.StatusUpdate (setStatus cr1 st msg), rep⟩] ++ tail ∧
            (Reconcile c fin r req s).cr = some (setStatus cr1 st msg) ∧
            ((rep = Reply.ok ∧ (Reconcile c fin r req s).result = res ∧ (Reconcile c fin r req s).err = none) ∨
             (∃ e, rep = Reply.fail e ∧ (Reconcile c fin r req s).result = {} ∧ (Reconcile c fin r req s).err = some e)) ∧
            ((cr.Status.InnerClusterName = "" ∧ tail = [] ∧ cr1 = cr ∧
                ∃ e, body = [⟨Call.GetKubeclientAndRepoCreds r.Config r.ArgoCdNs
                    cr.Spec.ClusterTemplate.Url, Reply.fail e⟩] ∧
                  st = "retrying" ∧ msg = "failed to get repo creds: " ++ e.msg ∧
                  res = retryDelayAsResult) ∨
             (cr.Status.InnerClusterName = "" ∧ tail = [] ∧ cr1 = cr ∧
                ∃ creds e, body = [⟨Call.GetKubeclientAndRepoCreds r.Config r.ArgoCdNs
                    cr.Spec.ClusterTemplate.Url, Reply.creds creds⟩,
                    ⟨Call.ValidateGitDir creds cr.Spec.ClusterTemplate.Url
                      cr.Spec.ClusterTemplate.Revision cr.Spec.ClusterTemplate.Path,
                      Reply.fail e⟩] ∧
                  st = "retrying" ∧ msg = "failed to validate cluster template: " ++ e.msg ∧
                  res = retryDelayAsResult) ∨
             (cr.Status.InnerClusterName = "" ∧ tail = [] ∧
                ∃ creds n, body = [⟨Call.GetKubeclientAndRepoCreds r.Config r.ArgoCdNs
                    cr.Spec.ClusterTemplate.Url, Reply.creds creds⟩,
                    ⟨Call.ValidateGitDir creds cr.Spec.ClusterTemplate.Url
                      cr.Spec.ClusterTemplate.Revision cr.Spec.ClusterTemplate.Path,
                      Reply.name n⟩] ∧
                  cr1 = { cr with Status := { cr.Status with InnerClusterName := n } } ∧
                  st = "initializing" ∧ msg = "cluster template validation successful" ∧
                  res = {}) ∨
             (cr.Status.InnerClusterName ≠ "" ∧ tail = [] ∧ cr1 = cr ∧
                ∃ e, body = [⟨Call.NewApplicationClient, Reply.fail e⟩] ∧
                  st = "retrying" ∧
                  msg = "failed to get argocd application client: " ++ e.msg ∧
                  res = retryDelayAsResult) ∨
             (cr.Status.InnerClusterName ≠ "" ∧ tail = [⟨Call.Close, Reply.ok⟩] ∧ cr1 = cr ∧
                ∃ abody, body = ⟨Call.NewApplicationClient, Reply.ok⟩ :: abody ∧
      ((∃ e, abody = [⟨Call.AppGet (cr.Name ++ "-arlon"), Reply.fail e⟩] ∧ e.grpcCode = none ∧
          st = "retrying" ∧ msg = "failed to get grpc status from argocd API" ∧
          res = retryDelayAsResult) ∨
       (∃ e code, abody = [⟨Call.AppGet (cr.Name ++ "-arlon"), Reply.fail e⟩] ∧
          e.grpcCode = some code ∧ code ≠ grpccodes.NotFound ∧
          st = "retrying" ∧ msg = "unexpected grpc status: " ++ toString code ∧
          res = retryDelayAsResult) ∨
       (∃ e err, abody = [⟨Call.AppGet (cr.Name ++ "-arlon"), Reply.fail e⟩,
            ⟨Call.Create (createArgs r cr), Reply.fail err⟩] ∧
          e.grpcCode = some grpccodes.NotFound ∧
          st = "retrying" ∧ msg = "failed to create arlon application: " ++ err.msg ∧
          res = retryDelayAsResult) ∨
       (∃ pre wbody, abody = pre ++ wbody ∧
          (pre = [⟨Call.AppGet (cr.Name ++ "-arlon"), Reply.ok⟩] ∨
           ∃ e, e.grpcCode = some grpccodes.NotFound ∧
             pre = [⟨Call.AppGet (cr.Name ++ "-arlon"), Reply.fail e⟩,
               ⟨Call.Create (createArgs r cr), Reply.ok⟩]) ∧
          ((wbody = [⟨Call.AppGet cr.Name, Reply.ok⟩] ∧ st = "created" ∧
              msg = "cluster app already exists -- ok" ∧ res = {}) ∨
           (∃ e err, wbody = [⟨Call.AppGet cr.Name, Reply.fail e⟩,
                ⟨Call.CreateClusterApp (clusterAppArgs r cr), Reply.fail err⟩] ∧
              st = "retrying" ∧ msg = "failed to create cluster application: " ++ err.msg ∧
              res = retryDelayAsResult) ∨
           (∃ e, wbody = [⟨Call.AppGet cr.Name, Reply.fail e⟩,
                ⟨Call.CreateClusterApp (clusterAppArgs r cr), Reply.ok⟩] ∧
              st = "created" ∧ msg = "cluster creation successful" ∧
              res = retryDelayAsResult))))))))) := by
  generalize ho : Reconcile c fin r req s = o
  simp only [Reconcile, ReconcileDelete] at ho
  split at ho
  · rename_i e s1 hg
    refine Or.inl ⟨e, s1, hg, ?_⟩
    split at ho <;> subst ho <;> simp_all
  · rename_i cr s1 hg
    refine Or.inr ⟨cr, s1, hg, ?_⟩
    split at ho
    · rename_i e _ _
      subst ho
      exact Or.inl ⟨e, rfl, rfl, rfl, rfl⟩
    · refine Or.inr ?_
      split at ho
      · rename_i hdel
        have hdel0 : IsZero cr.DeletionTimestamp = false := by
          cases hz : IsZero cr.DeletionTimestamp
          · rfl
          · rw [hz] at hdel
            exact absurd hdel (by decide)
        subst ho
        exact Or.inl ⟨Or.inl hdel0, rfl, rfl, rfl, rfl⟩
      · rename_i hdel
        have hdel1 : IsZero cr.DeletionTimestamp = true := by
          cases hz : IsZero cr.DeletionTimestamp
          · rw [hz] at hdel
            exact absurd rfl hdel
          · rfl
        split at ho
        · rename_i hst
          subst ho
          exact Or.inl ⟨Or.inr hst, rfl, rfl, rfl, rfl⟩
        · rename_i hst
          refine Or.inr ?_
          split at ho
          · rename_i hfin
            have hfin1 : ContainsFinalizer cr fin = false := by
              cases hz : ContainsFinalizer cr fin
              · rfl
              · rw [hz] at hfin
                exact absurd hfin (by decide)
            refine Or.inl ⟨hdel1, hst, hfin1, ?_⟩
            split at ho
            · subst ho
              exact ⟨_, rfl, rfl, rfl, Or.inr ⟨_, rfl, rfl⟩⟩
            · subst ho
              exact ⟨_, rfl, rfl, rfl, Or.inl ⟨rfl, rfl⟩⟩
          · rename_i hfin
            have hfin1 : ContainsFinalizer cr fin = true := by
              cases hz : ContainsFinalizer cr fin
              · rw [hz] at hfin
                exact absurd rfl hfin
              · rfl
            refine Or.inr ⟨hdel1, hst, hfin1, ?_⟩
            split at ho
            · rename_i hin
              split at ho
              · rename_i e _ _
                obtain ⟨rep, h1, h2, h3⟩ := UpdateState_paths c _
                  ([⟨Call.Get req, Reply.cluster cr⟩] ++ [⟨Call.NewHelper cr, Reply.ok⟩] ++
                    [⟨Call.GetKubeclientAndRepoCreds r.Config r.ArgoCdNs
                      cr.Spec.ClusterTemplate.Url, Reply.fail e⟩])
                  cr "retrying" ("failed to get repo creds: " ++ e.msg) retryDelayAsResult
                subst ho
                refine ⟨_, cr, _, _, _, rep, [], ?_, h2, h3,
                  Or.inl ⟨hin, rfl, rfl, e, rfl, rfl, rfl, rfl⟩⟩
                simpa using h1
              · rename_i creds _ _
                split at ho
                · rename_i e _ _
                  obtain ⟨rep, h1, h2, h3⟩ := UpdateState_paths c _
                    ([⟨Call.Get req, Reply.cluster cr⟩] ++ [⟨Call.NewHelper cr, Reply.ok⟩] ++
                      [⟨Call.GetKubeclientAndRepoCreds r.Config r.ArgoCdNs
                        cr.Spec.ClusterTemplate.Url, Reply.creds creds⟩] ++
                      [⟨Call.ValidateGitDir creds cr.Spec.ClusterTemplate.Url
                        cr.Spec.ClusterTemplate.Revision cr.Spec.ClusterTemplate.Path,
                        Reply.fail e⟩])
                    cr "retrying" ("failed to validate cluster template: " ++ e.msg)
                    retryDelayAsResult
                  subst ho
                  refine ⟨_, cr, _, _, _, rep, [], ?_, h2, h3,
                    Or.inr (Or.inl ⟨hin, rfl, rfl, creds, e, rfl, rfl, rfl, rfl⟩)⟩
                  simpa using h1
                · rename_i n _ _
                  obtain ⟨rep, h1, h2, h3⟩ := UpdateState_paths c _
                    ([⟨Call.Get req, Reply.cluster cr⟩] ++ [⟨Call.NewHelper cr, Reply.ok⟩] ++
                      [⟨Call.GetKubeclientAndRepoCreds r.Config r.ArgoCdNs
                        cr.Spec.ClusterTemplate.Url, Reply.creds creds⟩] ++
                      [⟨Call.ValidateGitDir creds cr.Spec.ClusterTemplate.Url
                        cr.Spec.ClusterTemplate.Revision cr.Spec.ClusterTemplate.Path,
                        Reply.name n⟩])
                    { cr with Status := { cr.Status with InnerClusterName := n } }
                    "initializing" "cluster template validation successful" {}
                  subst ho
                  refine ⟨_, _, _, _, _, rep, [], ?_, h2, h3,
                    Or.inr (Or.inr (Or.inl ⟨hin, rfl, creds, n, rfl, rfl, rfl, rfl, rfl⟩))⟩
                  simpa using h1
            · rename_i hin
              split at ho
              · rename_i e _ _
                obtain ⟨rep, h1, h2, h3⟩ := UpdateState_paths c _
                  ([⟨Call.Get req, Reply.cluster cr⟩] ++ [⟨Call.NewHelper cr, Reply.ok⟩] ++
                    [⟨Call.NewApplicationClient, Reply.fail e⟩])
                  cr "retrying" ("failed to get argocd application client: " ++ e.msg)
                  retryDelayAsResult
                subst ho
                refine ⟨_, cr, _, _, _, rep, [], ?_, h2, h3,
                  Or.inr (Or.inr (Or.inr (Or.inl ⟨hin, rfl, rfl, e, rfl, rfl, rfl, rfl⟩)))⟩
                simpa using h1
              · obtain ⟨abody, st, msg, res, rep, h1, h2, h3, h4⟩ := apps_paths c r _
                  ([⟨Call.Get req, Reply.cluster cr⟩] ++ [⟨Call.NewHelper cr, Reply.ok⟩] ++
                    [⟨Call.NewApplicationClient, Reply.ok⟩]) cr
                subst ho
                refine ⟨⟨Call.NewApplicationClient, Reply.ok⟩ :: abody, cr, st, msg, res, rep,
                  [⟨Call.Close, Reply.ok⟩], ?_, h2, h3,
                  Or.inr (Or.inr (Or.inr (Or.inr ⟨hin, rfl, rfl, abody, rfl, h4⟩)))⟩
                simp only [h1]
                simp

/-! ### C1: finalizer first -/

/-- C1. A pass that fetched a record which is not marked for deletion and does
not carry the finalizer makes no delivery-engine call, whatever the
collaborators answer: its calls are the fetch and the patch-helper
construction, followed at most by one patch of the record with the finalizer
added, and the record it leaves is the fetched one or that one with the
finalizer added. Conversely, in any pass whatsoever, a `cluster.Create` or
`cluster.CreateClusterApp` call occurs only if the fetched record already
carried the finalizer. -/
theorem finalizer_first {σ : Type} (c : Collaborators σ) (fin : String) (r : ClusterReconciler)
    (req : NamespacedName) (s : σ) :
    (∀ cr s1, c.Get req s = (Except.ok cr, s1) → IsZero cr.DeletionTimestamp = true →
      ContainsFinalizer cr fin = false →
      (∀ e ∈ (Reconcile c fin r req s).trace, e.call.isDeliveryEngine = false) ∧
      ((Reconcile c fin r req s).trace.map Event.call = [Call.Get req, Call.NewHelper cr] ∨
       (Reconcile c fin r req s).trace.map Event.call =
         [Call.Get req, Call.NewHelper cr, Call.Patch (AddFinalizer cr fin) true]) ∧
      ((Reconcile c fin r req s).cr = some cr ∨
       (Reconcile c fin r req s).cr = some (AddFinalizer cr fin))) ∧
    (∀ e ∈ (Reconcile c fin r req s).trace,
      ((∃ a, e.call = Call.Create a) ∨ (∃ a, e.call = Call.CreateClusterApp a)) →
      ∃ cr s1, c.Get req s = (Except.ok cr, s1) ∧ ContainsFinalizer cr fin = true) := by
  constructor
  · intro cr s1 hGet hDel hFin
    unfold Reconcile
    simp only [hGet, hDel, hFin]
    repeat' split
    all_goals simp_all [ReconcileDelete, Call.isDeliveryEngine]
  · simp only [Reconcile, ReconcileDelete]
    repeat' split
    all_goals simp_all

/-- C1 on scenario A: the first pass over "foo" (no finalizer yet) only
fetches, builds the helper and patches. -/
theorem finalizer_first_witness :
    (∀ e ∈ (Reconcile (allSucceed exCreds "inner") exFinalizer exReconciler fooKey fooWorld).trace,
      e.call.isDeliveryEngine = false) ∧
    ((Reconcile (allSucceed exCreds "inner") exFinalizer exReconciler fooKey fooWorld).trace.map
        Event.call = [Call.Get fooKey, Call.NewHelper fooCluster] ∨
     (Reconcile (allSucceed exCreds "inner") exFinalizer exReconciler fooKey fooWorld).trace.map
        Event.call =
       [Call.Get fooKey, Call.NewHelper fooCluster,
        Call.Patch (AddFinalizer fooCluster exFinalizer) true]) ∧
    ((Reconcile (allSucceed exCreds "inner") exFinalizer exReconciler fooKey fooWorld).cr =
        some fooCluster ∨
     (Reconcile (allSucceed exCreds "inner") exFinalizer exReconciler fooKey fooWorld).cr =
        some (AddFinalizer fooCluster exFinalizer)) :=
  (finalizer_first (allSucceed exCreds "inner") exFinalizer exReconciler fooKey fooWorld).1
    fooCluster fooWorld rfl (by decide) (by decide)

/-! ### C2: no double creation -/

/-- C2. In a pass in which the lookup of the platform Application
`<cluster>-arlon` returned no error, `cluster.Create` is never called,
whatever the workload lookup and the workload creation return. -/
theorem no_double_creation {σ : Type} (c : Collaborators σ) (fin : String)
    (r : ClusterReconciler) (req : NamespacedName) (s s1 : σ) (cr : Cluster)
    (hGet : c.Get req s = (Except.ok cr, s1))
    (hFound : ⟨Call.AppGet (cr.Name ++ "-arlon"), Reply.ok⟩ ∈ (Reconcile c fin r req s).trace) :
    ∀ e ∈ (Reconcile c fin r req s).trace, ∀ a, e.call ≠ Call.Create a := by
  have hp := Reconcile_paths c fin r req s
  generalize Reconcile c fin r req s = o at hp hFound ⊢
  casesm* _ ∨ _, _ ∧ _, ∃ _, _
  all_goals simp_all [arlon_name_ne, ne_arlon_name]

/-- C2 on a concrete pass: "foo" initialised, platform Application found,
workload Application not found and then created. -/
theorem no_double_creation_witness :
    ⟨Call.AppGet "foo-arlon", Reply.ok⟩ ∈
      (Reconcile (scripted { okScript fooInitialized with workloadGet := some notFoundError })
        exFinalizer exReconciler fooKey 0).trace ∧
    ∀ e ∈ (Reconcile (scripted { okScript fooInitialized with workloadGet := some notFoundError })
        exFinalizer exReconciler fooKey 0).trace, ∀ a, e.call ≠ Call.Create a :=
  ⟨by decide,
   no_double_creation (scripted { okScript fooInitialized with workloadGet := some notFoundError })
    exFinalizer exReconciler fooKey 0 0 fooInitialized rfl (by decide)⟩

/-! ### C3: the terminal state -/

/-- C3, as stated, fails: for a record in state "created" that is not marked
for deletion, the pass asks for a requeue when the patch helper cannot be
built (line 93 runs before the state is looked at on line 99). -/
theorem created_requeues_on_helper_failure :
    fooCreated.Status.State = "created" ∧ IsZero fooCreated.DeletionTimestamp = true ∧
    (Reconcile (scripted { okScript fooCreated with newHelper := some (Errorf "no kind") })
      exFinalizer exReconciler fooKey 0).result = { Requeue := true, RequeueAfter := 0 } := by
  decide

/-- C3, amended. A pass that fetched a record in state "created" that is not
marked for deletion calls nothing but the fetch and the patch-helper
construction (no delivery-engine call, no credential or validation call, no
patch, no status update), leaves the record as fetched and returns no error
and no delay. When the patch helper is built the result is empty (no
requeue), and a second pass that fetches the same record does exactly the
same; when the helper cannot be built the result is `Requeue = true`. -/
theorem created_is_terminal {σ : Type} (c : Collaborators σ) (fin : String)
    (r : ClusterReconciler) (req : NamespacedName) (s s1 : σ) (cr : Cluster)
    (hGet : c.Get req s = (Except.ok cr, s1))
    (hDel : IsZero cr.DeletionTimestamp = true)
    (hState : cr.Status.State = "created") :
    (Reconcile c fin r req s).trace.map Event.call = [Call.Get req, Call.NewHelper cr] ∧
    (Reconcile c fin r req s).cr = some cr ∧
    (Reconcile c fin r req s).err = none ∧
    (Reconcile c fin r req s).result.RequeueAfter = 0 ∧
    (∀ s2, c.NewHelper cr s1 = (none, s2) →
      (Reconcile c fin r req s).result = {} ∧
      (Reconcile c fin r req s).world = s2 ∧
      ∀ s3 s4, c.Get req s2 = (Except.ok cr, s3) → c.NewHelper cr s3 = (none, s4) →
        (Reconcile c fin r req (Reconcile c fin r req s).world).result = {} ∧
        (Reconcile c fin r req (Reconcile c fin r req s).world).err = none ∧
        (Reconcile c fin r req (Reconcile c fin r req s).world).cr = some cr ∧
        (Reconcile c fin r req (Reconcile c fin r req s).world).trace.map Event.call =
          [Call.Get req, Call.NewHelper cr]) ∧
    (∀ e s2, c.NewHelper cr s1 = (some e, s2) →
      (Reconcile c fin r req s).result = { Requeue := true, RequeueAfter := 0 }) := by
  refine ⟨?_, ?_, ?_, ?_, ?_, ?_⟩
  · simp only [Reconcile, ReconcileDelete, hGet, hDel, hState]
    split <;> simp
  · simp only [Reconcile, ReconcileDelete, hGet, hDel, hState]
    split <;> simp
  · simp only [Reconcile, ReconcileDelete, hGet, hDel, hState]
    split <;> simp
  · simp only [Reconcile, ReconcileDelete, hGet, hDel, hState]
    split <;> simp
  · intro s2 hHelper
    have h1 : (Reconcile c fin r req s).world = s2 := by
      simp [Reconcile, hGet, hHelper, hDel, hState]
    refine ⟨by simp [Reconcile, hGet, hHelper, hDel, hState], h1, ?_⟩
    intro s3 s4 hGet2 hHelper2
    rw [h1]
    simp [Reconcile, hGet2, hHelper2, hDel, hState]
  · intro e s2 hHelper
    simp [Reconcile, hGet, hHelper]

/-- C3 amended, on "foo" in state "created" with every call succeeding. -/
theorem created_is_terminal_witness :
    (Reconcile (scripted (okScript fooCreated)) exFinalizer exReconciler fooKey 0).trace.map
      Event.call = [Call.Get fooKey, Call.NewHelper fooCreated] ∧
    (Reconcile (scripted (okScript fooCreated)) exFinalizer exReconciler fooKey 0).cr =
      some fooCreated :=
  ⟨(created_is_terminal (scripted (okScript fooCreated)) exFinalizer exReconciler fooKey 0 0
      fooCreated rfl (by decide) (by decide)).1,
   (created_is_terminal (scripted (okScript fooCreated)) exFinalizer exReconciler fooKey 0 0
      fooCreated rfl (by decide) (by decide)).2.1⟩

/-! ### C9: scenario B -/

/-- C9. For a fetched record that is not marked for deletion, is not in state
"created", carries the finalizer and has an empty inner cluster name: when
the credential lookup succeeds, template validation fails with an error of
text `err.msg` and the status update succeeds, the pass returns
`RequeueAfter` of exactly ten seconds with no requeue flag and no error,
leaves the record with state "retrying", message "failed to validate cluster
template: " followed by the error text and the inner cluster name still
empty, stores that record, and makes no delivery-engine call. -/
theorem validation_failure_retries {σ : Type} (c : Collaborators σ) (fin : String)
    (r : ClusterReconciler) (req : NamespacedName) (s s1 : σ) (cr : Cluster)
    (creds : RepoCreds) (err : Error)
    (hGet : c.Get req s = (Except.ok cr, s1))
    (hDel : IsZero cr.DeletionTimestamp = true)
    (hState : cr.Status.State ≠ "created")
    (hFin : ContainsFinalizer cr fin = true)
    (hInner : cr.Status.InnerClusterName = "")
    (hCreds : ⟨Call.GetKubeclientAndRepoCreds r.Config r.ArgoCdNs cr.Spec.ClusterTemplate.Url,
        Reply.creds creds⟩ ∈ (Reconcile c fin r req s).trace)
    (hVal : ⟨Call.ValidateGitDir creds cr.Spec.ClusterTemplate.Url
        cr.Spec.ClusterTemplate.Revision cr.Spec.ClusterTemplate.Path, Reply.fail err⟩ ∈
        (Reconcile c fin r req s).trace)
    (hUpd : ∀ e ∈ (Reconcile c fin r req s).trace, e.call.isStatusUpdate = true →
        e.reply = Reply.ok) :
    (Reconcile c fin r req s).result = { Requeue := false, RequeueAfter := 10 * Second } ∧
    (Reconcile c fin r req s).err = none ∧
    (Reconcile c fin r req s).cr = some { cr with Status :=
      { State := "retrying",
        Message := "failed to validate cluster template: " ++ err.msg,
        InnerClusterName := "" } } ∧
    ⟨Call.StatusUpdate { cr with Status :=
      { State := "retrying",
        Message := "failed to validate cluster template: " ++ err.msg,
        InnerClusterName := "" } }, Reply.ok⟩ ∈ (Reconcile c fin r req s).trace ∧
    (∀ e ∈ (Reconcile c fin r req s).trace, e.call.isDeliveryEngine = false) := by
  have hp := Reconcile_paths c fin r req s
  generalize Reconcile c fin r req s = o at hp hCreds hVal hUpd ⊢
  casesm* _ ∨ _, _ ∧ _, ∃ _, _
  all_goals simp_all [retryDelayAsResult, Call.isDeliveryEngine, Call.isStatusUpdate, Second,
    setStatus]

/-- The failing validation of scenario B: "invalid revision". -/
theorem validation_failure_retries_witness :
    (Reconcile (scripted { okScript fooWithFinalizer with
        validateGitDir := Except.error (Errorf "invalid revision") })
      exFinalizer exReconciler fooKey 0).result = { Requeue := false, RequeueAfter := 10 * Second } ∧
    (Reconcile (scripted { okScript fooWithFinalizer with
        validateGitDir := Except.error (Errorf "invalid revision") })
      exFinalizer exReconciler fooKey 0).cr = some { fooWithFinalizer with Status :=
      { State := "retrying",
        Message := "failed to validate cluster template: invalid revision",
        InnerClusterName := "" } } :=
  ⟨(validation_failure_retries (scripted { okScript fooWithFinalizer with
        validateGitDir := Except.error (Errorf "invalid revision") })
      exFinalizer exReconciler fooKey 0 0 fooWithFinalizer exCreds (Errorf "invalid revision")
      rfl (by decide) (by decide) (by decide) (by decide) (by decide) (by decide) (by decide)).1,
   (validation_failure_retries (scripted { okScript fooWithFinalizer with
        validateGitDir := Except.error (Errorf "invalid revision") })
      exFinalizer exReconciler fooKey 0 0 fooWithFinalizer exCreds (Errorf "invalid revision")
      rfl (by decide) (by decide) (by decide) (by decide) (by decide) (by decide) (by decide)).2.2.1⟩

/-! ### C4: the retry contract -/

/-- C4, as stated, fails: when the fetch fails with an error other than
not-found the pass returns `Requeue = true` with no delay, not the ten-second
retry delay, and writes no status at all. -/
theorem fetch_failure_requeues_without_delay :
    (Reconcile (scripted { okScript fooCluster with get := Except.error (Errorf "timeout") })
      exFinalizer exReconciler fooKey 0).result = { Requeue := true, RequeueAfter := 0 } ∧
    (Reconcile (scripted { okScript fooCluster with get := Except.error (Errorf "timeout") })
      exFinalizer exReconciler fooKey 0).result ≠ retryDelayAsResult ∧
    (Reconcile (scripted { okScript fooCluster with get := Except.error (Errorf "timeout") })
      exFinalizer exReconciler fooKey 0).cr = none := by
  decide

set_option maxHeartbeats 1000000 in
/-- C4, amended. (a) In a pass in which the repo-credential lookup, the
template validation, the opening of the delivery-engine client, the platform
Application lookup (with an outcome other than gRPC NotFound), the platform
creation or the workload creation fails, and the status update succeeds, the
result is exactly `retryDelayAsResult` (ten seconds) with no error, and the
stored record has state "retrying" and a non-empty message. (b) When the
status update fails, and (c) when the finalizer patch fails, the pass returns
that error with an empty result. (d) When the fetch fails other than with
not-found, or the patch helper cannot be built, the pass returns
`Requeue = true` with no delay and no error, and stores no status. -/
theorem retry_contract {σ : Type} (c : Collaborators σ) (fin : String)
    (r : ClusterReconciler) (req : NamespacedName) (s : σ) :
    (∀ cr s1, c.Get req s = (Except.ok cr, s1) →
      ∀ ev ∈ (Reconcile c fin r req s).trace, ∀ err, ev.reply = Reply.fail err →
      ((∃ cfg ns url, ev.call = Call.GetKubeclientAndRepoCreds cfg ns url) ∨
       (∃ cd url rev path, ev.call = Call.ValidateGitDir cd url rev path) ∨
       ev.call = Call.NewApplicationClient ∨
       (ev.call = Call.AppGet (cr.Name ++ "-arlon") ∧ err.grpcCode ≠ some grpccodes.NotFound) ∨
       (∃ a, ev.call = Call.Create a) ∨
       (∃ a, ev.call = Call.CreateClusterApp a)) →
      (∀ e ∈ (Reconcile c fin r req s).trace, e.call.isStatusUpdate = true →
        e.reply = Reply.ok) →
      (Reconcile c fin r req s).result = retryDelayAsResult ∧
      (Reconcile c fin r req s).result.RequeueAfter = 10 * Second ∧
      (Reconcile c fin r req s).err = none ∧
      ∃ cr2, (Reconcile c fin r req s).cr = some cr2 ∧ cr2.Status.State = "retrying" ∧
        cr2.Status.Message ≠ "" ∧
        ⟨Call.StatusUpdate cr2, Reply.ok⟩ ∈ (Reconcile c fin r req s).trace) ∧
    (∀ ev ∈ (Reconcile c fin r req s).trace, ∀ err, ev.reply = Reply.fail err →
      ((∃ cr2, ev.call = Call.StatusUpdate cr2) ∨ (∃ cr2 b, ev.call = Call.Patch cr2 b)) →
      (Reconcile c fin r req s).result = {} ∧ (Reconcile c fin r req s).err = some err) ∧
    (∀ ev ∈ (Reconcile c fin r req s).trace, ∀ err, ev.reply = Reply.fail err →
      ((ev.call = Call.Get req ∧ err.isNotFound = false) ∨ (∃ cr, ev.call = Call.NewHelper cr)) →
      (Reconcile c fin r req s).result = { Requeue := true, RequeueAfter := 0 } ∧
      (Reconcile c fin r req s).err = none ∧
      ∀ e ∈ (Reconcile c fin r req s).trace, e.call.isStatusUpdate = false) := by
  have hp := Reconcile_paths c fin r req s
  generalize Reconcile c fin r req s = o at hp ⊢
  rcases o with ⟨ores, oerr, ocr, otr, ow⟩
  dsimp only at hp ⊢
  refine ⟨?_, ?_, ?_⟩
  · intro cr s1 hGet
    simp only [hGet, Prod.mk.injEq, Except.ok.injEq, reduceCtorEq, false_and, exists_false,
      false_or, exists_and_left, exists_eq_left'] at hp
    casesm* _ ∨ _, _ ∧ _, ∃ _, _
    all_goals subst_vars
    all_goals simp [retryDelayAsResult, Call.isStatusUpdate, Second, setStatus,
      append_eq_empty_iff, arlon_name_ne, ne_arlon_name]
    all_goals simp_all
  · casesm* _ ∨ _, _ ∧ _, ∃ _, _
    all_goals subst_vars
    all_goals simp
  · casesm* _ ∨ _, _ ∧ _, ∃ _, _
    all_goals subst_vars
    all_goals simp [Call.isStatusUpdate]

/-- C4 amended, on a pass whose platform creation fails: "foo" initialised,
platform Application not found, `cluster.Create` failing, status stored. -/
theorem retry_contract_witness :
    (Reconcile (scripted { okScript fooInitialized with
        platformGet := some notFoundError, create := some (Errorf "exists") })
      exFinalizer exReconciler fooKey 0).result = retryDelayAsResult :=
  ((retry_contract (scripted { okScript fooInitialized with
        platformGet := some notFoundError, create := some (Errorf "exists") })
      exFinalizer exReconciler fooKey 0).1 fooInitialized 0 rfl
    ⟨Call.Create (createArgs exReconciler fooInitialized), Reply.fail (Errorf "exists")⟩
    (by decide) (Errorf "exists") rfl
    (Or.inr (Or.inr (Or.inr (Or.inr (Or.inl ⟨_, rfl⟩))))) (by decide)).1

/-! ### C5: only not-found means "does not exist yet" -/

/-- The platform half of C5 holds: `cluster.Create` is called only in a pass
whose platform Application lookup failed with gRPC status NotFound. -/
theorem platform_create_only_on_not_found {σ : Type} (c : Collaborators σ) (fin : String)
    (r : ClusterReconciler) (req : NamespacedName) (s s1 : σ) (cr : Cluster)
    (hGet : c.Get req s = (Except.ok cr, s1)) :
    ∀ e ∈ (Reconcile c fin r req s).trace, ∀ a, e.call = Call.Create a →
      ∃ err, ⟨Call.AppGet (cr.Name ++ "-arlon"), Reply.fail err⟩ ∈ (Reconcile c fin r req s).trace ∧
        err.grpcCode = some grpccodes.NotFound := by
  have hp := Reconcile_paths c fin r req s
  generalize Reconcile c fin r req s = o at hp ⊢
  casesm* _ ∨ _, _ ∧ _, ∃ _, _
  all_goals simp_all

/-- C5, the workload half, on the code: with the platform Application found,
a workload lookup that fails with gRPC status `Unavailable` (not NotFound),
or with an error that carries no gRPC status at all, is followed by a
`cluster.CreateClusterApp` call; with that call succeeding the pass stores
state "created" instead of "retrying". -/
theorem workload_lookup_error_still_creates :
    unavailableError.grpcCode ≠ some grpccodes.NotFound ∧
    (Reconcile (scripted { okScript fooInitialized with workloadGet := some unavailableError })
      exFinalizer exReconciler fooKey 0).trace =
      [⟨Call.Get fooKey, Reply.cluster fooInitialized⟩,
       ⟨Call.NewHelper fooInitialized, Reply.ok⟩,
       ⟨Call.NewApplicationClient, Reply.ok⟩,
       ⟨Call.AppGet "foo-arlon", Reply.ok⟩,
       ⟨Call.AppGet "foo", Reply.fail unavailableError⟩,
       ⟨Call.CreateClusterApp (clusterAppArgs exReconciler fooInitialized), Reply.ok⟩,
       ⟨Call.StatusUpdate (setStatus fooInitialized "created" "cluster creation successful"),
         Reply.ok⟩,
       ⟨Call.Close, Reply.ok⟩] ∧
    (Reconcile (scripted { okScript fooInitialized with workloadGet := some unavailableError })
      exFinalizer exReconciler fooKey 0).result = retryDelayAsResult ∧
    (Errorf "EOF").grpcCode = none ∧
    (Reconcile (scripted { okScript fooInitialized with workloadGet := some (Errorf "EOF") })
      exFinalizer exReconciler fooKey 0).trace.map Event.call =
      [Call.Get fooKey, Call.NewHelper fooInitialized, Call.NewApplicationClient,
       Call.AppGet "foo-arlon", Call.AppGet "foo",
       Call.CreateClusterApp (clusterAppArgs exReconciler fooInitialized),
       Call.StatusUpdate (setStatus fooInitialized "created" "cluster creation successful"),
       Call.Close] := by
  decide

/-! ### C7: the workload Application exists -/

/-- C7, as stated, fails: when the workload Application is found the pass
returns the empty result, whose `RequeueAfter` is zero, not a positive delay. -/
theorem workload_found_returns_no_delay :
    ContainsFinalizer fooInitialized exFinalizer = true ∧
    fooInitialized.Status.InnerClusterName ≠ "" ∧
    fooInitialized.Status.State ≠ "created" ∧
    ⟨Call.AppGet "foo-arlon", Reply.ok⟩ ∈
      (Reconcile (scripted (okScript fooInitialized)) exFinalizer exReconciler fooKey 0).trace ∧
    ⟨Call.AppGet "foo", Reply.ok⟩ ∈
      (Reconcile (scripted (okScript fooInitialized)) exFinalizer exReconciler fooKey 0).trace ∧
    (Reconcile (scripted (okScript fooInitialized)) exFinalizer exReconciler fooKey 0).result =
      { Requeue := false, RequeueAfter := 0 } ∧
    ¬ (0 < (Reconcile (scripted (okScript fooInitialized)) exFinalizer exReconciler
      fooKey 0).result.RequeueAfter) := by
  decide

/-- C7, amended. For a fetched record with the finalizer present, a non-empty
inner cluster name and a state other than "created": in a pass in which the
lookup of the workload Application (named as the cluster) returned no error
(so the platform step did not end the pass), `cluster.CreateClusterApp` is
not called, the pass writes state "created" with message "cluster app already
exists -- ok" and submits that record in a status update, and it returns the
empty result (no requeue, no delay), with no error when the status update
succeeds and with the update error otherwise. -/
theorem workload_exists_outcome {σ : Type} (c : Collaborators σ) (fin : String)
    (r : ClusterReconciler) (req : NamespacedName) (s s1 : σ) (cr : Cluster)
    (hGet : c.Get req s = (Except.ok cr, s1))
    (hFin : ContainsFinalizer cr fin = true)
    (hInner : cr.Status.InnerClusterName ≠ "")
    (hState : cr.Status.State ≠ "created")
    (hFound : ⟨Call.AppGet cr.Name, Reply.ok⟩ ∈ (Reconcile c fin r req s).trace) :
    (∀ e ∈ (Reconcile c fin r req s).trace, ∀ a, e.call ≠ Call.CreateClusterApp a) ∧
    (Reconcile c fin r req s).cr =
      some (setStatus cr "created" "cluster app already exists -- ok") ∧
    (∃ rep, ⟨Call.StatusUpdate (setStatus cr "created" "cluster app already exists -- ok"), rep⟩ ∈
        (Reconcile c fin r req s).trace ∧
      ((rep = Reply.ok ∧ (Reconcile c fin r req s).err = none) ∨
       (∃ e, rep = Reply.fail e ∧ (Reconcile c fin r req s).err = some e))) ∧
    (Reconcile c fin r req s).result = {} ∧
    (Reconcile c fin r req s).result.RequeueAfter = 0 := by
  have hp := Reconcile_paths c fin r req s
  generalize Reconcile c fin r req s = o at hp hFound ⊢
  casesm* _ ∨ _, _ ∧ _, ∃ _, _
  all_goals simp_all [arlon_name_ne, ne_arlon_name]

/-- C7 amended, on "foo" initialised with both Applications found. -/
theorem workload_exists_outcome_witness :
    (Reconcile (scripted (okScript fooInitialized)) exFinalizer exReconciler fooKey 0).cr =
      some (setStatus fooInitialized "created" "cluster app already exists -- ok") ∧
    (Reconcile (scripted (okScript fooInitialized)) exFinalizer exReconciler fooKey 0).result = {} :=
  ⟨(workload_exists_outcome (scripted (okScript fooInitialized)) exFinalizer exReconciler fooKey
      0 0 fooInitialized rfl (by decide) (by decide) (by decide) (by decide)).2.1,
   (workload_exists_outcome (scripted (okScript fooInitialized)) exFinalizer exReconciler fooKey
      0 0 fooInitialized rfl (by decide) (by decide) (by decide) (by decide)).2.2.2.1⟩

/-! ### C8: push gating in the profile flow -/

/-- A push is in the trace of `createInGit` exactly when the six stages
answered without error and `CommitChanges` answered `changed = true`. -/
theorem createInGit_push_iff {σ : Type} (c : GitCollaborators σ) (kubeClient profileCm : Handle)
    (argocdNs arlonNs repoUrl repoPath repoBranch : String) (s : σ) :
    (∃ e ∈ (createInGit c kubeClient profileCm argocdNs arlonNs repoUrl repoPath repoBranch s).trace, e.call.isPush = true) ↔
      ∃ bundles s1 repo tmpDir auth s2 wt s3 s4 s5 s6,
        c.GetBundlesFromProfile profileCm kubeClient arlonNs s = (Except.ok bundles, s1) ∧
        c.CloneRepo kubeClient argocdNs repoUrl repoBranch s1 = (Except.ok (repo, tmpDir, auth), s2) ∧
        c.Worktree repo s2 = (Except.ok wt, s3) ∧
        c.CopyManifests wt "." repoPath s3 = (none, s4) ∧
        c.ProcessBundles wt "\x7b\x7b .Values.clusterName \x7d\x7d" repoUrl repoPath
          (c.Join repoPath "templates") bundles s4 = (none, s5) ∧
        c.CommitChanges tmpDir wt s5 = (Except.ok true, s6) := by
  constructor
  · intro h
    rcases hB : c.GetBundlesFromProfile profileCm kubeClient arlonNs s with ⟨e | bundles, s1⟩
    · simp [createInGit, hB, GitCall.isPush] at h
    rcases hC : c.CloneRepo kubeClient argocdNs repoUrl repoBranch s1 with
      ⟨e | ⟨repo, tmpDir, auth⟩, s2⟩
    · simp [createInGit, hB, hC, GitCall.isPush] at h
    rcases hW : c.Worktree repo s2 with ⟨e | wt, s3⟩
    · simp [createInGit, hB, hC, hW, GitCall.isPush] at h
    rcases hM : c.CopyManifests wt "." repoPath s3 with ⟨_ | e, s4⟩
    swap
    · simp [createInGit, hB, hC, hW, hM, GitCall.isPush] at h
    rcases hP : c.ProcessBundles wt "\x7b\x7b .Values.clusterName \x7d\x7d" repoUrl repoPath
      (c.Join repoPath "templates") bundles s4 with ⟨_ | e, s5⟩
    swap
    · simp [createInGit, hB, hC, hW, hM, hP, GitCall.isPush] at h
    rcases hK : c.CommitChanges tmpDir wt s5 with ⟨e | changed, s6⟩
    · simp [createInGit, hB, hC, hW, hM, hP, hK, GitCall.isPush] at h
    cases changed
    · simp [createInGit, hB, hC, hW, hM, hP, hK, GitCall.isPush] at h
    · exact ⟨bundles, s1, repo, tmpDir, auth, s2, wt, s3, s4, s5, s6, rfl, hC, hW, hM, hP, hK⟩
  · rintro ⟨bundles, s1, repo, tmpDir, auth, s2, wt, s3, s4, s5, s6, h1, h2, h3, h4, h5, h6⟩
    rcases h7 : c.Push repo { RemoteName := DefaultRemoteName, Auth := auth } s6 with
      ⟨_ | e, s7⟩ <;>
    simp [createInGit, h1, h2, h3, h4, h5, h6, h7, GitCall.isPush]

set_option maxHeartbeats 1000000 in
/-- C8. Whatever the stages of `createInGit` return, `repo.Push` is called if
and only if resolving the bundles, cloning, getting the worktree, copying the
manifests, processing the bundles and `CommitChanges` all returned without
error and `CommitChanges` reported `changed = true`; the push is then the
last call, made on the cloned repository with remote `origin` and the auth of
the clone, and the flow returns nil when it succeeds and the wrapped push
error otherwise. When `CommitChanges` reports `changed = false` the six
stages are the only calls, there is no push and the flow returns nil. When
one of the six stages fails there is no push and the flow returns the error
that names the stage. -/
theorem push_gating {σ : Type} (c : GitCollaborators σ) (kubeClient profileCm : Handle)
    (argocdNs arlonNs repoUrl repoPath repoBranch : String) (s : σ) :
    ((∃ e ∈ (createInGit c kubeClient profileCm argocdNs arlonNs repoUrl repoPath repoBranch s).trace, e.call.isPush = true) ↔
      ∃ bundles s1 repo tmpDir auth s2 wt s3 s4 s5 s6,
        c.GetBundlesFromProfile profileCm kubeClient arlonNs s = (Except.ok bundles, s1) ∧
        c.CloneRepo kubeClient argocdNs repoUrl repoBranch s1 = (Except.ok (repo, tmpDir, auth), s2) ∧
        c.Worktree repo s2 = (Except.ok wt, s3) ∧
        c.CopyManifests wt "." repoPath s3 = (none, s4) ∧
        c.ProcessBundles wt "\x7b\x7b .Values.clusterName \x7d\x7d" repoUrl repoPath
          (c.Join repoPath "templates") bundles s4 = (none, s5) ∧
        c.CommitChanges tmpDir wt s5 = (Except.ok true, s6)) ∧
    (∀ bundles s1 repo tmpDir auth s2 wt s3 s4 s5 s6,
        c.GetBundlesFromProfile profileCm kubeClient arlonNs s = (Except.ok bundles, s1) →
        c.CloneRepo kubeClient argocdNs repoUrl repoBranch s1 = (Except.ok (repo, tmpDir, auth), s2) →
        c.Worktree repo s2 = (Except.ok wt, s3) →
        c.CopyManifests wt "." repoPath s3 = (none, s4) →
        c.ProcessBundles wt "\x7b\x7b .Values.clusterName \x7d\x7d" repoUrl repoPath
          (c.Join repoPath "templates") bundles s4 = (none, s5) →
        c.CommitChanges tmpDir wt s5 = (Except.ok true, s6) →
        (∀ s7, c.Push repo { RemoteName := DefaultRemoteName, Auth := auth } s6 = (none, s7) →
          (createInGit c kubeClient profileCm argocdNs arlonNs repoUrl repoPath repoBranch s).trace =
            [⟨GitCall.GetBundlesFromProfile profileCm kubeClient arlonNs, GitReply.bundles bundles⟩,
          ⟨GitCall.CloneRepo kubeClient argocdNs repoUrl repoBranch, GitReply.cloned repo tmpDir auth⟩,
          ⟨GitCall.Worktree repo, GitReply.worktree wt⟩,
          ⟨GitCall.CopyManifests wt "." repoPath, GitReply.ok⟩,
          ⟨GitCall.ProcessBundles wt "\x7b\x7b .Values.clusterName \x7d\x7d" repoUrl repoPath
            (c.Join repoPath "templates") bundles, GitReply.ok⟩,
          ⟨GitCall.CommitChanges tmpDir wt, GitReply.changed true⟩,
          ⟨GitCall.Push repo { RemoteName := DefaultRemoteName, Auth := auth }, GitReply.ok⟩] ∧
          (createInGit c kubeClient profileCm argocdNs arlonNs repoUrl repoPath repoBranch s).err = none) ∧
        (∀ perr s7, c.Push repo { RemoteName := DefaultRemoteName, Auth := auth } s6 = (some perr, s7) →
          (createInGit c kubeClient profileCm argocdNs arlonNs repoUrl repoPath repoBranch s).trace =
            [⟨GitCall.GetBundlesFromProfile profileCm kubeClient arlonNs, GitReply.bundles bundles⟩,
          ⟨GitCall.CloneRepo kubeClient argocdNs repoUrl repoBranch, GitReply.cloned repo tmpDir auth⟩,
          ⟨GitCall.Worktree repo, GitReply.worktree wt⟩,
          ⟨GitCall.CopyManifests wt "." repoPath, GitReply.ok⟩,
          ⟨GitCall.ProcessBundles wt "\x7b\x7b .Values.clusterName \x7d\x7d" repoUrl repoPath
            (c.Join repoPath "templates") bundles, GitReply.ok⟩,
          ⟨GitCall.CommitChanges tmpDir wt, GitReply.changed true⟩,
          ⟨GitCall.Push repo { RemoteName := DefaultRemoteName, Auth := auth }, GitReply.fail perr⟩] ∧
          (createInGit c kubeClient profileCm argocdNs arlonNs repoUrl repoPath repoBranch s).err =
            some (Errorf ("failed to push to remote repository: " ++ perr.msg)))) ∧
    (∀ bundles s1 repo tmpDir auth s2 wt s3 s4 s5 s6,
        c.GetBundlesFromProfile profileCm kubeClient arlonNs s = (Except.ok bundles, s1) →
        c.CloneRepo kubeClient argocdNs repoUrl repoBranch s1 = (Except.ok (repo, tmpDir, auth), s2) →
        c.Worktree repo s2 = (Except.ok wt, s3) →
        c.CopyManifests wt "." repoPath s3 = (none, s4) →
        c.ProcessBundles wt "\x7b\x7b .Values.clusterName \x7d\x7d" repoUrl repoPath
          (c.Join repoPath "templates") bundles s4 = (none, s5) →
        c.CommitChanges tmpDir wt s5 = (Except.ok false, s6) →
        (createInGit c kubeClient profileCm argocdNs arlonNs repoUrl repoPath repoBranch s).trace =
          [⟨GitCall.GetBundlesFromProfile profileCm kubeClient arlonNs, GitReply.bundles bundles⟩,
          ⟨GitCall.CloneRepo kubeClient argocdNs repoUrl repoBranch, GitReply.cloned repo tmpDir auth⟩,
          ⟨GitCall.Worktree repo, GitReply.worktree wt⟩,
          ⟨GitCall.CopyManifests wt "." repoPath, GitReply.ok⟩,
          ⟨GitCall.ProcessBundles wt "\x7b\x7b .Values.clusterName \x7d\x7d" repoUrl repoPath
            (c.Join repoPath "templates") bundles, GitReply.ok⟩,
          ⟨GitCall.CommitChanges tmpDir wt, GitReply.changed false⟩] ∧
        (∀ e ∈ (createInGit c kubeClient profileCm argocdNs arlonNs repoUrl repoPath repoBranch s).trace, e.call.isPush = false) ∧
        (createInGit c kubeClient profileCm argocdNs arlonNs repoUrl repoPath repoBranch s).err = none) ∧
    (∀ err s1,
        c.GetBundlesFromProfile profileCm kubeClient arlonNs s = (Except.error err, s1) →
        (∀ e ∈ (createInGit c kubeClient profileCm argocdNs arlonNs repoUrl repoPath repoBranch s).trace, e.call.isPush = false) ∧
        (createInGit c kubeClient profileCm argocdNs arlonNs repoUrl repoPath repoBranch s).err = some (Errorf ("failed to get bundles: " ++ err.msg))) ∧
    (∀ err bundles s1 s2,
        c.GetBundlesFromProfile profileCm kubeClient arlonNs s = (Except.ok bundles, s1) →
        c.CloneRepo kubeClient argocdNs repoUrl repoBranch s1 = (Except.error err, s2) →
        (∀ e ∈ (createInGit c kubeClient profileCm argocdNs arlonNs repoUrl repoPath repoBranch s).trace, e.call.isPush = false) ∧
        (createInGit c kubeClient profileCm argocdNs arlonNs repoUrl repoPath repoBranch s).err = some (Errorf ("failed to clone repo: " ++ err.msg))) ∧
    (∀ err bundles s1 repo tmpDir auth s2 s3,
        c.GetBundlesFromProfile profileCm kubeClient arlonNs s = (Except.ok bundles, s1) →
        c.CloneRepo kubeClient argocdNs repoUrl repoBranch s1 = (Except.ok (repo, tmpDir, auth), s2) →
        c.Worktree repo s2 = (Except.error err, s3) →
        (∀ e ∈ (createInGit c kubeClient profileCm argocdNs arlonNs repoUrl repoPath repoBranch s).trace, e.call.isPush = false) ∧
        (createInGit c kubeClient profileCm argocdNs arlonNs repoUrl repoPath repoBranch s).err = some (Errorf ("failed to get repo worktree: " ++ err.msg))) ∧
    (∀ err bundles s1 repo tmpDir auth s2 wt s3 s4,
        c.GetBundlesFromProfile profileCm kubeClient arlonNs s = (Except.ok bundles, s1) →
        c.CloneRepo kubeClient argocdNs repoUrl repoBranch s1 = (Except.ok (repo, tmpDir, auth), s2) →
        c.Worktree repo s2 = (Except.ok wt, s3) →
        c.CopyManifests wt "." repoPath s3 = (some err, s4) →
        (∀ e ∈ (createInGit c kubeClient profileCm argocdNs arlonNs repoUrl repoPath repoBranch s).trace, e.call.isPush = false) ∧
        (createInGit c kubeClient profileCm argocdNs arlonNs repoUrl repoPath repoBranch s).err = some (Errorf ("failed to copy embedded content: " ++ err.msg))) ∧
    (∀ err bundles s1 repo tmpDir auth s2 wt s3 s4 s5,
        c.GetBundlesFromProfile profileCm kubeClient arlonNs s = (Except.ok bundles, s1) →
        c.CloneRepo kubeClient argocdNs repoUrl repoBranch s1 = (Except.ok (repo, tmpDir, auth), s2) →
        c.Worktree repo s2 = (Except.ok wt, s3) →
        c.CopyManifests wt "." repoPath s3 = (none, s4) →
        c.ProcessBundles wt "\x7b\x7b .Values.clusterName \x7d\x7d" repoUrl repoPath
          (c.Join repoPath "templates") bundles s4 = (some err, s5) →
        (∀ e ∈ (createInGit c kubeClient profileCm argocdNs arlonNs repoUrl repoPath repoBranch s).trace, e.call.isPush = false) ∧
        (createInGit c kubeClient profileCm argocdNs arlonNs repoUrl repoPath repoBranch s).err = some (Errorf ("failed to process bundles: " ++ err.msg))) ∧
    (∀ err bundles s1 repo tmpDir auth s2 wt s3 s4 s5 s6,
        c.GetBundlesFromProfile profileCm kubeClient arlonNs s = (Except.ok bundles, s1) →
        c.CloneRepo kubeClient argocdNs repoUrl repoBranch s1 = (Except.ok (repo, tmpDir, auth), s2) →
        c.Worktree repo s2 = (Except.ok wt, s3) →
        c.CopyManifests wt "." repoPath s3 = (none, s4) →
        c.ProcessBundles wt "\x7b\x7b .Values.clusterName \x7d\x7d" repoUrl repoPath
          (c.Join repoPath "templates") bundles s4 = (none, s5) →
        c.CommitChanges tmpDir wt s5 = (Except.error err, s6) →
        (∀ e ∈ (createInGit c kubeClient profileCm argocdNs arlonNs repoUrl repoPath repoBranch s).trace, e.call.isPush = false) ∧
        (createInGit c kubeClient profileCm argocdNs arlonNs repoUrl repoPath repoBranch s).err = some (Errorf ("failed to commit changes: " ++ err.msg))) := by
  refine ⟨?_, ?_, ?_, ?_, ?_, ?_, ?_, ?_, ?_⟩
  · exact createInGit_push_iff c kubeClient profileCm argocdNs arlonNs repoUrl repoPath
      repoBranch s
  · intro bundles s1 repo tmpDir auth s2 wt s3 s4 s5 s6 h1 h2 h3 h4 h5 h6
    refine ⟨?_, ?_⟩
    · intro s7 h7
      simp [createInGit, h1, h2, h3, h4, h5, h6, h7]
    · intro perr s7 h7
      simp [createInGit, h1, h2, h3, h4, h5, h6, h7]
  · intro bundles s1 repo tmpDir auth s2 wt s3 s4 s5 s6 h1 h2 h3 h4 h5 h6
    simp [createInGit, h1, h2, h3, h4, h5, h6, GitCall.isPush]
  · intro err s1 h1
    simp [createInGit, h1, GitCall.isPush]
  · intro err bundles s1 s2 h1 h2
    simp [createInGit, h1, h2, GitCall.isPush]
  · intro err bundles s1 repo tmpDir auth s2 s3 h1 h2 h3
    simp [createInGit, h1, h2, h3, GitCall.isPush]
  · intro err bundles s1 repo tmpDir auth s2 wt s3 s4 h1 h2 h3 h4
    simp [createInGit, h1, h2, h3, h4, GitCall.isPush]
  · intro err bundles s1 repo tmpDir auth s2 wt s3 s4 s5 h1 h2 h3 h4 h5
    simp [createInGit, h1, h2, h3, h4, h5, GitCall.isPush]
  · intro err bundles s1 repo tmpDir auth s2 wt s3 s4 s5 s6 h1 h2 h3 h4 h5 h6
    simp [createInGit, h1, h2, h3, h4, h5, h6, GitCall.isPush]

/-- C8 on four runs over repository path `profiles/p`: every stage succeeds
and something changed (the push is the seventh call, nil returned); the push
itself fails (its wrapped error returned); nothing changed (six calls, no
push, nil returned); the clone fails (no push, "failed to clone repo: ..."
returned). -/
theorem push_gating_witness :
    (∃ e ∈ (createInGit (gitScripted (okGitScript true)) 7 8 "argocd" "arlon"
        "https://example/repo.git" "profiles/p" "main" ()).trace, e.call.isPush = true) ∧
    ((createInGit (gitScripted (okGitScript true)) 7 8 "argocd" "arlon"
        "https://example/repo.git" "profiles/p" "main" ()).trace =
        [⟨GitCall.GetBundlesFromProfile 8 7 "arlon", GitReply.bundles 1⟩,
         ⟨GitCall.CloneRepo 7 "argocd" "https://example/repo.git" "main",
           GitReply.cloned 2 "/tmp/arlon-1" 3⟩,
         ⟨GitCall.Worktree 2, GitReply.worktree 4⟩,
         ⟨GitCall.CopyManifests 4 "." "profiles/p", GitReply.ok⟩,
         ⟨GitCall.ProcessBundles 4 "\x7b\x7b .Values.clusterName \x7d\x7d" "https://example/repo.git"
           "profiles/p" "profiles/p/templates" 1, GitReply.ok⟩,
         ⟨GitCall.CommitChanges "/tmp/arlon-1" 4, GitReply.changed true⟩,
         ⟨GitCall.Push 2 { RemoteName := "origin", Auth := 3 }, GitReply.ok⟩] ∧
      (createInGit (gitScripted (okGitScript true)) 7 8 "argocd" "arlon"
        "https://example/repo.git" "profiles/p" "main" ()).err = none) ∧
    ((createInGit (gitScripted { okGitScript true with push := some (Errorf "rejected") }) 7 8 "argocd" "arlon"
        "https://example/repo.git" "profiles/p" "main" ()).err =
        some (Errorf "failed to push to remote repository: rejected")) ∧
    ((∀ e ∈ (createInGit (gitScripted (okGitScript false)) 7 8 "argocd" "arlon"
        "https://example/repo.git" "profiles/p" "main" ()).trace, e.call.isPush = false) ∧
      (createInGit (gitScripted (okGitScript false)) 7 8 "argocd" "arlon"
        "https://example/repo.git" "profiles/p" "main" ()).err = none) ∧
    ((∀ e ∈ (createInGit (gitScripted { okGitScript true with clone := Except.error (Errorf "auth required") }) 7 8 "argocd" "arlon"
        "https://example/repo.git" "profiles/p" "main" ()).trace, e.call.isPush = false) ∧
      (createInGit (gitScripted { okGitScript true with clone := Except.error (Errorf "auth required") }) 7 8 "argocd" "arlon"
        "https://example/repo.git" "profiles/p" "main" ()).err = some (Errorf "failed to clone repo: auth required")) :=
  ⟨(push_gating (gitScripted (okGitScript true)) 7 8 "argocd" "arlon"
      "https://example/repo.git" "profiles/p" "main" ()).1.mpr
      ⟨1, (), 2, "/tmp/arlon-1", 3, (), 4, (), (), (), (), rfl, rfl, rfl, rfl, rfl, rfl⟩,
   ((push_gating (gitScripted (okGitScript true)) 7 8 "argocd" "arlon"
      "https://example/repo.git" "profiles/p" "main" ()).2.1
      1 () 2 "/tmp/arlon-1" 3 () 4 () () () () rfl rfl rfl rfl rfl rfl).1 () rfl,
   (((push_gating (gitScripted { okGitScript true with push := some (Errorf "rejected") }) 7 8 "argocd" "arlon"
      "https://example/repo.git" "profiles/p" "main" ()).2.1
      1 () 2 "/tmp/arlon-1" 3 () 4 () () () () rfl rfl rfl rfl rfl rfl).2
      (Errorf "rejected") () rfl).2,
   ((push_gating (gitScripted (okGitScript false)) 7 8 "argocd" "arlon"
      "https://example/repo.git" "profiles/p" "main" ()).2.2.1
      1 () 2 "/tmp/arlon-1" 3 () 4 () () () () rfl rfl rfl rfl rfl rfl).2,
   (push_gating (gitScripted { okGitScript true with clone := Except.error (Errorf "auth required") }) 7 8 "argocd" "arlon"
      "https://example/repo.git" "profiles/p" "main" ()).2.2.2.2.1
      (Errorf "auth required") 1 () () rfl rfl⟩

/-! ### C6: scenario A -/

/-- C6, as stated, fails: in scenario A the third pass creates the workload
Application "foo" as well and stores state "created"; the fourth pass creates
nothing, and the fifth pass looks nothing up and stores nothing. -/
theorem third_pass_creates_both_applications :
    ⟨Call.CreateClusterApp (clusterAppArgs exReconciler (fooValidated "inner")), Reply.ok⟩ ∈
      (scenarioA exCreds "inner" 3).trace ∧
    (clusterAppArgs exReconciler (fooValidated "inner")).clusterName = "foo" ∧
    (scenarioA exCreds "inner" 3).world.stored.Status.State = "created" ∧
    (scenarioA exCreds "inner" 4).trace.map Event.call =
      [Call.Get fooKey,
       Call.NewHelper (setStatus (fooValidated "inner") "created" "cluster creation successful")] ∧
    (scenarioA exCreds "inner" 5).trace.map Event.call =
      [Call.Get fooKey,
       Call.NewHelper (setStatus (fooValidated "inner") "created" "cluster creation successful")] := by
  decide

/-- The third pass of scenario A, for any validated inner cluster name that is
not empty. -/
theorem third_pass_of_scenario_A (creds : RepoCreds) (inner : String) (hInner : inner ≠ "") :
    (scenarioA creds inner 3).trace.map Event.call =
      [Call.Get fooKey, Call.NewHelper (fooValidated inner), Call.NewApplicationClient,
       Call.AppGet "foo-arlon", Call.Create (createArgs exReconciler (fooValidated inner)),
       Call.AppGet "foo",
       Call.CreateClusterApp (clusterAppArgs exReconciler (fooValidated inner)),
       Call.StatusUpdate (setStatus (fooValidated inner) "created" "cluster creation successful"),
       Call.Close] ∧
    (scenarioA creds inner 3).result = retryDelayAsResult ∧
    (scenarioA creds inner 3).err = none ∧
    (scenarioA creds inner 3).world =
      { stored := setStatus (fooValidated inner) "created" "cluster creation successful",
        apps := ["foo-arlon", "foo"] } := by
  have h3 : scenarioA creds inner 3 = Reconcile (allSucceed creds inner) exFinalizer exReconciler
      fooKey ⟨fooValidated inner, []⟩ := rfl
  have hin : (fooValidated inner).Status.InnerClusterName ≠ "" := hInner
  have hst : (fooValidated inner).Status.State ≠ "created" := by
    show "initializing" ≠ "created"
    decide
  have hca : (createArgs exReconciler (fooValidated inner)).clusterName = "foo" := rfl
  have hcb : (clusterAppArgs exReconciler (fooValidated inner)).clusterName = "foo" := rfl
  have hname : (fooValidated inner).Name = "foo" := rfl
  have hns : (fooValidated inner).Namespace = "default" := rfl
  have hdel : IsZero (fooValidated inner).DeletionTimestamp = true := rfl
  have hfin : ContainsFinalizer (fooValidated inner) exFinalizer = true := rfl
  rw [h3]
  simp [Reconcile, Reconcile.apps, Reconcile.workload, UpdateState, allSucceed, hin, hst, hname,
    hns, hdel, hfin, hca, hcb, fooKey, notFoundError]

/-- C6, amended. In scenario A (Cluster "foo", empty status, no finalizer,
template `https://example/repo.git` / `p` / `main`, every call succeeding,
no Application at first, validation returning a non-empty inner cluster
name): pass 1 adds the finalizer with one patch and returns the empty result;
pass 2 looks up the credentials, validates the template and stores state
"initializing" with the inner cluster name, without any delivery-engine call;
pass 3 creates the platform Application "foo-arlon" and, in the same pass, the
workload Application "foo", stores state "created" and returns the ten-second
delay; passes 4 and 5 fetch the record, find it "created" and do nothing
else. -/
theorem scenario_A_five_passes (creds : RepoCreds) (inner : String) (hInner : inner ≠ "") :
    ((scenarioA creds inner 1).trace.map Event.call =
        [Call.Get fooKey, Call.NewHelper fooCluster, Call.Patch fooWithFinalizer true] ∧
      (scenarioA creds inner 1).result = {} ∧
      (scenarioA creds inner 1).err = none ∧
      (scenarioA creds inner 1).world = { stored := fooWithFinalizer, apps := [] }) ∧
    ((scenarioA creds inner 2).trace.map Event.call =
        [Call.Get fooKey, Call.NewHelper fooWithFinalizer,
         Call.GetKubeclientAndRepoCreds exReconciler.Config "argocd" "https://example/repo.git",
         Call.ValidateGitDir creds "https://example/repo.git" "main" "p",
         Call.StatusUpdate (fooValidated inner)] ∧
      (scenarioA creds inner 2).result = {} ∧
      (scenarioA creds inner 2).err = none ∧
      (fooValidated inner).Status.State = "initializing" ∧
      (fooValidated inner).Status.InnerClusterName = inner ∧
      (scenarioA creds inner 2).world = { stored := fooValidated inner, apps := [] }) ∧
    ((scenarioA creds inner 3).trace.map Event.call =
        [Call.Get fooKey, Call.NewHelper (fooValidated inner), Call.NewApplicationClient,
         Call.AppGet "foo-arlon", Call.Create (createArgs exReconciler (fooValidated inner)),
         Call.AppGet "foo",
         Call.CreateClusterApp (clusterAppArgs exReconciler (fooValidated inner)),
         Call.StatusUpdate
           (setStatus (fooValidated inner) "created" "cluster creation successful"),
         Call.Close] ∧
      (scenarioA creds inner 3).result = retryDelayAsResult ∧
      (scenarioA creds inner 3).err = none ∧
      (scenarioA creds inner 3).world =
        { stored := setStatus (fooValidated inner) "created" "cluster creation successful",
          apps := ["foo-arlon", "foo"] }) ∧
    ((scenarioA creds inner 4).trace.map Event.call =
        [Call.Get fooKey,
         Call.NewHelper (setStatus (fooValidated inner) "created" "cluster creation successful")] ∧
      (scenarioA creds inner 4).result = {} ∧
      (scenarioA creds inner 4).err = none ∧
      (scenarioA creds inner 4).world = (scenarioA creds inner 3).world) ∧
    ((scenarioA creds inner 5).trace.map Event.call =
        [Call.Get fooKey,
         Call.NewHelper (setStatus (fooValidated inner) "created" "cluster creation successful")] ∧
      (scenarioA creds inner 5).result = {} ∧
      (scenarioA creds inner 5).err = none ∧
      (scenarioA creds inner 5).world = (scenarioA creds inner 3).world) := by
  have h3 := third_pass_of_scenario_A creds inner hInner
  have h4 : scenarioA creds inner 4 = Reconcile (allSucceed creds inner) exFinalizer exReconciler
      fooKey { stored := setStatus (fooValidated inner) "created" "cluster creation successful",
               apps := ["foo-arlon", "foo"] } := by
    show Reconcile (allSucceed creds inner) exFinalizer exReconciler fooKey
      (scenarioA creds inner 3).world = _
    rw [h3.2.2.2]
  have h5 : scenarioA creds inner 5 = Reconcile (allSucceed creds inner) exFinalizer exReconciler
      fooKey { stored := setStatus (fooValidated inner) "created" "cluster creation successful",
               apps := ["foo-arlon", "foo"] } := by
    show Reconcile (allSucceed creds inner) exFinalizer exReconciler fooKey
      (scenarioA creds inner 4).world = _
    rw [h4]
    rfl
  refine ⟨⟨rfl, rfl, rfl, rfl⟩, ⟨rfl, rfl, rfl, rfl, rfl, rfl⟩, h3, ?_, ?_⟩
  · rw [h4, h3.2.2.2]
    exact ⟨rfl, rfl, rfl, rfl⟩
  · rw [h5, h3.2.2.2]
    exact ⟨rfl, rfl, rfl, rfl⟩

/-- C6 amended, with the inner cluster name "inner". -/
theorem scenario_A_five_passes_witness :
    (scenarioA exCreds "inner" 3).world =
      { stored := setStatus (fooValidated "inner") "created" "cluster creation successful",
        apps := ["foo-arlon", "foo"] } :=
  (scenario_A_five_passes exCreds "inner" (by decide)).2.2.1.2.2.2

/-! ### C10: the stored state string -/

/-- The stored state string does not reach `UpdateState`. -/
theorem UpdateState_withState {σ : Type} (c : Collaborators σ) (s : σ) (tr : List Event)
    (cr : Cluster) (st a m : String) (res : Result) :
    UpdateState c s tr (withState cr st) a m res = UpdateState c s tr cr a m res := rfl

/-- The stored state string does not reach the workload step. -/
theorem workload_withState {σ : Type} (c : Collaborators σ) (r : ClusterReconciler) (s : σ)
    (tr : List Event) (cr : Cluster) (st : String) :
    Reconcile.workload c r s tr (withState cr st) = Reconcile.workload c r s tr cr := rfl

/-- The stored state string does not reach the platform step. -/
theorem apps_withState {σ : Type} (c : Collaborators σ) (r : ClusterReconciler) (s : σ)
    (tr : List Event) (cr : Cluster) (st : String) :
    Reconcile.apps c r s tr (withState cr st) = Reconcile.apps c r s tr cr := rfl

/-- An earlier event only shows up at the head of the trace of `UpdateState`. -/
theorem UpdateState_cons {σ : Type} (c : Collaborators σ) (s : σ) (a : Event) (tr : List Event)
    (cr : Cluster) (st m : String) (res : Result) :
    UpdateState c s (a :: tr) cr st m res =
      { UpdateState c s tr cr st m res with
        trace := a :: (UpdateState c s tr cr st m res).trace } := by
  simp only [UpdateState]
  split <;> rfl

/-- An earlier event only shows up at the head of the trace of the workload step. -/
theorem workload_cons {σ : Type} (c : Collaborators σ) (r : ClusterReconciler) (s : σ)
    (a : Event) (tr : List Event) (cr : Cluster) :
    Reconcile.workload c r s (a :: tr) cr =
      { Reconcile.workload c r s tr cr with
        trace := a :: (Reconcile.workload c r s tr cr).trace } := by
  simp only [Reconcile.workload, List.cons_append, UpdateState_cons]
  split
  · rfl
  · split <;> rfl

/-- An earlier event only shows up at the head of the trace of the platform step. -/
theorem apps_cons {σ : Type} (c : Collaborators σ) (r : ClusterReconciler) (s : σ)
    (a : Event) (tr : List Event) (cr : Cluster) :
    Reconcile.apps c r s (a :: tr) cr =
      { Reconcile.apps c r s tr cr with
        trace := a :: (Reconcile.apps c r s tr cr).trace } := by
  simp only [Reconcile.apps, List.cons_append, UpdateState_cons, workload_cons]
  split
  · rfl
  · split
    · rfl
    · split
      · rfl
      · split <;> rfl

/-- The platform step does not use the fetch. -/
theorem apps_Get_irrelevant {σ : Type} (c : Collaborators σ)
    (g : NamespacedName → σ → Except Error Cluster × σ) (r : ClusterReconciler) (s : σ)
    (tr : List Event) (cr : Cluster) :
    Reconcile.apps { c with Get := g } r s tr cr = Reconcile.apps c r s tr cr := rfl

/-- Method `UpdateState` does not use the fetch. -/
theorem UpdateState_Get_irrelevant {σ : Type} (c : Collaborators σ)
    (g : NamespacedName → σ → Except Error Cluster × σ) (s : σ) (tr : List Event)
    (cr : Cluster) (a m : String) (res : Result) :
    UpdateState { c with Get := g } s tr cr a m res = UpdateState c s tr cr a m res := rfl

/-- C10, as stated, fails: two records without the finalizer that differ only
in the stored state ("" and "retrying") get the same replies, yet the pass
only patches the finalizer in and never writes the state, so the two passes
end with different states. -/
theorem stored_state_survives_finalizer_pass :
    ContainsFinalizer fooCluster exFinalizer = false ∧
    (Reconcile (scripted (okScript (withState fooCluster ""))) exFinalizer exReconciler
      fooKey 0).cr.map (fun x => x.Status.State) = some "" ∧
    (Reconcile (scripted (okScript (withState fooCluster "retrying"))) exFinalizer exReconciler
      fooKey 0).cr.map (fun x => x.Status.State) = some "retrying" := by
  decide

/-- C10, amended. Take two records that carry the finalizer, are not marked
for deletion and differ only in a stored state among "", "initializing" and
"retrying", and collaborators that answer alike in both passes (the same
collaborators but for the fetch, which returns the one or the other record;
the patch helper is built in both). After the fetch and the construction of
the patch helper, which are handed the record itself, the two passes make the
same calls with the same arguments and get the same replies; they return the
same result and error and leave the same record (state, message and inner
cluster name) and the same world. -/
theorem stored_state_irrelevant {σ : Type} (c : Collaborators σ)
    (g1 g2 : NamespacedName → σ → Except Error Cluster × σ) (fin : String)
    (r : ClusterReconciler) (req : NamespacedName) (s t u : σ) (cr : Cluster)
    (st1 st2 : String)
    (h1 : st1 = "" ∨ st1 = "initializing" ∨ st1 = "retrying")
    (h2 : st2 = "" ∨ st2 = "initializing" ∨ st2 = "retrying")
    (hDel : IsZero cr.DeletionTimestamp = true)
    (hFin : ContainsFinalizer cr fin = true)
    (hGet1 : g1 req s = (Except.ok (withState cr st1), t))
    (hGet2 : g2 req s = (Except.ok (withState cr st2), t))
    (hHelper1 : c.NewHelper (withState cr st1) t = (none, u))
    (hHelper2 : c.NewHelper (withState cr st2) t = (none, u)) :
    (Reconcile { c with Get := g1 } fin r req s).trace.drop 2 =
      (Reconcile { c with Get := g2 } fin r req s).trace.drop 2 ∧
    (Reconcile { c with Get := g1 } fin r req s).result =
      (Reconcile { c with Get := g2 } fin r req s).result ∧
    (Reconcile { c with Get := g1 } fin r req s).err =
      (Reconcile { c with Get := g2 } fin r req s).err ∧
    (Reconcile { c with Get := g1 } fin r req s).cr =
      (Reconcile { c with Get := g2 } fin r req s).cr ∧
    (Reconcile { c with Get := g1 } fin r req s).world =
      (Reconcile { c with Get := g2 } fin r req s).world := by
  have hs1 : (withState cr st1).Status.State ≠ "created" := by
    show st1 ≠ "created"
    rcases h1 with h | h | h <;> subst h <;> decide
  have hs2 : (withState cr st2).Status.State ≠ "created" := by
    show st2 ≠ "created"
    rcases h2 with h | h | h <;> subst h <;> decide
  have hd1 : IsZero (withState cr st1).DeletionTimestamp = true := hDel
  have hd2 : IsZero (withState cr st2).DeletionTimestamp = true := hDel
  have hf1 : ContainsFinalizer (withState cr st1) fin = true := hFin
  have hf2 : ContainsFinalizer (withState cr st2) fin = true := hFin
  have hi1 : (withState cr st1).Status.InnerClusterName = cr.Status.InnerClusterName := rfl
  have hi2 : (withState cr st2).Status.InnerClusterName = cr.Status.InnerClusterName := rfl
  have hp1 : (withState cr st1).Spec = cr.Spec := rfl
  have hp2 : (withState cr st2).Spec = cr.Spec := rfl
  simp only [Reconcile, hGet1, hGet2, hHelper1, hHelper2, hs1, hs2, hd1, hd2, hf1, hf2, hi1, hi2,
    hp1, hp2, List.cons_append, List.nil_append, UpdateState_cons, apps_cons,
    UpdateState_withState, apps_withState, Bool.not_true, Bool.false_eq_true, if_false,
    reduceIte, apps_Get_irrelevant, UpdateState_Get_irrelevant]
  split
  · split
    · simp
    · split
      · simp
      · exact ⟨rfl, rfl, rfl, rfl, rfl⟩
  · split <;> simp

/-- C10 amended, on "foo" initialised, with stored state "" and "retrying". -/
theorem stored_state_irrelevant_witness :
    (Reconcile { scripted (okScript fooInitialized) with
        Get := fun _ n => (Except.ok (withState fooInitialized ""), n) }
      exFinalizer exReconciler fooKey 0).cr =
    (Reconcile { scripted (okScript fooInitialized) with
        Get := fun _ n => (Except.ok (withState fooInitialized "retrying"), n) }
      exFinalizer exReconciler fooKey 0).cr :=
  (stored_state_irrelevant (scripted (okScript fooInitialized))
    (fun _ n => (Except.ok (withState fooInitialized ""), n))
    (fun _ n => (Except.ok (withState fooInitialized "retrying"), n))
    exFinalizer exReconciler fooKey 0 0 0 fooInitialized "" "retrying"
    (Or.inl rfl) (Or.inr (Or.inr rfl)) (by decide) (by decide) rfl rfl rfl rfl).2.2.2.1


end Arlon
